import Mathlib

/-! SceneManager: texture registry, material registry, transform composition

A shallow embedding of `src/SceneManager.cpp`.

* The object state of `SceneManager` is the structure `SceneManager R`; every method
  takes the state and returns the new one (explicit state passing).
* `R` is the scalar type standing for the C++ `float`.  Registry code only copies
  scalars; the transform code is stated over a commutative ring (exact arithmetic).
* The collaborators that are not part of the repository (the OpenGL driver, the
  `stb_image` decoder, the `ShaderManager` uniform setters, the GLM matrix helpers)
  are modelled by small explicit state types and by parameters.
* Undefined behaviour of the C++ program (null dereference, access outside the
  texture array) is the explicit result `Except.error`.
-/

set_option autoImplicit false

/-! ## Data model -/

/-- Undefined behaviour the C++ code can run into. -/
inductive Fault where
  | nullDeref
  | outOfBounds
  deriving DecidableEq, Repr

deriving instance DecidableEq for Except

/-- A `glm::vec2`. -/
structure Vec2 (R : Type) where
  x : R
  y : R
  deriving DecidableEq, Repr

/-- A `glm::vec3`. -/
structure Vec3 (R : Type) where
  x : R
  y : R
  z : R
  deriving DecidableEq, Repr

/-- A `glm::vec4`; the colour aliases `r g b a` of GLM are the fields `x y z w`. -/
structure Vec4 (R : Type) where
  x : R
  y : R
  z : R
  w : R
  deriving DecidableEq, Repr

/-- A `glm::mat4`, indexed row first (mathematical convention). -/
abbrev Mat4 (R : Type) := Matrix (Fin 4) (Fin 4) R

/-- The value a uniform setter of the shader interface writes. -/
inductive UniformValue (R : Type) where
  | boolV (b : Bool)
  | intV (i : Int)
  | floatV (x : R)
  | vec2V (v : Vec2 R)
  | vec3V (v : Vec3 R)
  | vec4V (v : Vec4 R)
  | mat4V (m : Mat4 R)
  | sampler2DV (unit : Int)

/-- The shader interface, seen from the scene manager: the uniform writes made so far,
oldest first. -/
abbrev ShaderManager (R : Type) := List (String × UniformValue R)

/-- The current value of a uniform: the most recent write to that name. -/
def ShaderManager.uniform {R : Type} (sm : ShaderManager R) (name : String) :
    Option (UniformValue R) :=
  (sm.reverse.find? (fun w => w.1 == name)).map (fun w => w.2)

/-- An OpenGL texture name (`GLuint`, 32 bits unsigned). -/
abbrev GLuint := Nat

/-- The entry type of the texture array (`TEXTURE_INFO` of the header). -/
structure TEXTURE_INFO where
  ID : GLuint
  tag : String
  deriving DecidableEq, Repr

/-- The material record (`OBJECT_MATERIAL` of the header). -/
structure OBJECT_MATERIAL (R : Type) where
  ambientColor : Vec3 R
  ambientStrength : R
  diffuseColor : Vec3 R
  specularColor : Vec3 R
  shininess : R
  tag : String
  deriving DecidableEq, Repr

/-- The member variables of `SceneManager` this file reads or writes.
`m_pShaderManager = none` is the NULL pointer.  `m_textureIDs` is the fixed backing
array of the texture registry and `m_loadedTextures` the number of used slots. -/
structure SceneManager (R : Type) where
  m_pShaderManager : Option (ShaderManager R)
  m_textureIDs : List TEXTURE_INFO
  m_loadedTextures : Nat
  m_objectMaterials : List (OBJECT_MATERIAL R)

/-- Modelled from the spec: the header that declares `m_textureIDs` is not part of the
sources; the spec gives the capacity of the texture array as 16. -/
def TEXTURE_CAPACITY : Nat := 16

/-- The states in which the texture array has its declared size and the slot count
stays inside it. -/
def SceneManager.WellFormed {R : Type} (self : SceneManager R) : Prop :=
  self.m_textureIDs.length = TEXTURE_CAPACITY ∧ self.m_loadedTextures ≤ TEXTURE_CAPACITY

/-! ## External collaborators -/

/-- What `stbi_load` reports for a decoded file. -/
structure IMAGE where
  width : Int
  height : Int
  colorChannels : Int
  deriving DecidableEq, Repr

/-- The part of the OpenGL context the texture code touches: the texture names
generated so far (oldest first), the active texture unit, the `GL_TEXTURE_2D` binding
of every unit, and the image uploads made (texture name, channel count). -/
structure GLState where
  generated : List GLuint
  activeTexture : Nat
  boundTexture2D : Nat → GLuint
  uploads : List (GLuint × Int)

/-- The choice of the driver: the name it hands out next, given the names generated
so far. -/
abbrev GLDriver := List GLuint → GLuint

/-- The call `glGenTextures(1, &id)`: one new name, kept in the range of `GLuint`. -/
def glGenTextures (drv : GLDriver) (gl : GLState) : GLuint × GLState :=
  let id := drv gl.generated % 2 ^ 32
  (id, { gl with generated := gl.generated ++ [id] })

/-- The call `glBindTexture(GL_TEXTURE_2D, id)`: binds on the active unit. -/
def glBindTexture (gl : GLState) (id : GLuint) : GLState :=
  { gl with boundTexture2D := fun u => if u = gl.activeTexture then id else gl.boundTexture2D u }

/-- The call `glActiveTexture(GL_TEXTURE0 + i)`. -/
def glActiveTexture (gl : GLState) (i : Nat) : GLState :=
  { gl with activeTexture := i }

/-- The call `glTexImage2D(GL_TEXTURE_2D, ...)`: uploads to the texture bound on the active unit. -/
def glTexImage2D (gl : GLState) (channels : Int) : GLState :=
  { gl with uploads := gl.uploads ++ [(gl.boundTexture2D gl.activeTexture, channels)] }

/-- The `GL_TEXTURE_2D` binding of the active unit. -/
def GLState.current2D (gl : GLState) : GLuint := gl.boundTexture2D gl.activeTexture

/-- Conversion of a `GLuint` to the `int` that `FindTextureID` returns. -/
def GLuint_to_int (id : GLuint) : Int :=
  if id % 2 ^ 32 < 2 ^ 31 then ((id % 2 ^ 32 : Nat) : Int) else ((id % 2 ^ 32 : Nat) : Int) - 2 ^ 32

/-- Conversion of an `int` back to `GLuint`. -/
def int_to_GLuint (i : Int) : GLuint := (i % 2 ^ 32).toNat

/-! ## Texture registry -/

namespace SceneManager

variable {R : Type}

/-- The method `CreateGLTexture(filename, tag)`.  `stbi_load` is the decoder together with the
files on disk; `none` is the null image pointer.  The vertical flip, the texture
parameters, the mipmaps and the release of the image memory do not influence anything
modelled here and are left out of `GLState`.  The write to `m_textureIDs` outside the
array is the fault `outOfBounds`. -/
def CreateGLTexture (drv : GLDriver) (stbi_load : String → Option IMAGE)
    (self : SceneManager R) (gl : GLState) (filename : String) (tag : String) :
    Except Fault (Bool × SceneManager R × GLState) :=
  match stbi_load filename with
  | some image =>
    let (textureID, gl1) := glGenTextures drv gl
    let gl2 := glBindTexture gl1 textureID
    if image.colorChannels = 3 ∨ image.colorChannels = 4 then
      let gl3 := glTexImage2D gl2 image.colorChannels
      let gl4 := glBindTexture gl3 0
      if self.m_loadedTextures < self.m_textureIDs.length then
        .ok (true,
          { self with
            m_textureIDs := self.m_textureIDs.set self.m_loadedTextures ⟨textureID, tag⟩
            m_loadedTextures := self.m_loadedTextures + 1 },
          gl4)
      else
        .error Fault.outOfBounds
    else
      .ok (false, self, gl2)
  | none => .ok (false, self, gl)

/-- The loop of `FindTextureID`; `remaining` is `m_loadedTextures - index`, so the
guard `index < m_loadedTextures` is `remaining ≠ 0`. -/
def FindTextureID.loop (ids : List TEXTURE_INFO) (tag : String) :
    Nat → Nat → Except Fault Int
  | 0, _ => .ok (-1)
  | remaining + 1, index =>
    match ids[index]? with
    | none => .error Fault.outOfBounds
    | some e =>
      if e.tag = tag then .ok (GLuint_to_int e.ID)
      else FindTextureID.loop ids tag remaining (index + 1)

/-- The method `FindTextureID(tag)`. -/
def FindTextureID (self : SceneManager R) (tag : String) : Except Fault Int :=
  FindTextureID.loop self.m_textureIDs tag self.m_loadedTextures 0

/-- The loop of `FindTextureSlot`; `remaining` is `m_loadedTextures - index`. -/
def FindTextureSlot.loop (ids : List TEXTURE_INFO) (tag : String) :
    Nat → Nat → Except Fault Int
  | 0, _ => .ok (-1)
  | remaining + 1, index =>
    match ids[index]? with
    | none => .error Fault.outOfBounds
    | some e =>
      if e.tag = tag then .ok (index : Int)
      else FindTextureSlot.loop ids tag remaining (index + 1)

/-- The method `FindTextureSlot(tag)`. -/
def FindTextureSlot (self : SceneManager R) (tag : String) : Except Fault Int :=
  FindTextureSlot.loop self.m_textureIDs tag self.m_loadedTextures 0

/-- The tag stored in slot `i` of the texture array. -/
def tagAt (self : SceneManager R) (i : Nat) : Option String :=
  (self.m_textureIDs[i]?).map (fun e => e.tag)

/-- The handle stored in slot `i` of the texture array. -/
def idAt (self : SceneManager R) (i : Nat) : Option GLuint :=
  (self.m_textureIDs[i]?).map (fun e => e.ID)

/-- A run of `CreateGLTexture` calls, one per `(filename, tag)` request, in order;
collects the returned booleans. -/
def CreateGLTextures (drv : GLDriver) (stbi_load : String → Option IMAGE) :
    List (String × String) → SceneManager R → GLState →
      Except Fault (List Bool × SceneManager R × GLState)
  | [], self, gl => .ok ([], self, gl)
  | (filename, tag) :: rest, self, gl =>
    match CreateGLTexture drv stbi_load self gl filename tag with
    | .error e => .error e
    | .ok (b, self1, gl1) =>
      match CreateGLTextures drv stbi_load rest self1 gl1 with
      | .error e => .error e
      | .ok (bs, self2, gl2) => .ok (b :: bs, self2, gl2)

end SceneManager

/-! ## Shader interface (external collaborator) -/

/-- The setter `setIntValue(name, value)`. -/
def ShaderManager.setIntValue {R : Type} (sm : ShaderManager R) (name : String) (value : Int) :
    ShaderManager R :=
  sm ++ [(name, UniformValue.intV value)]

/-- The setter `setFloatValue(name, value)`. -/
def ShaderManager.setFloatValue {R : Type} (sm : ShaderManager R) (name : String) (value : R) :
    ShaderManager R :=
  sm ++ [(name, UniformValue.floatV value)]

/-- The setter `setVec3Value(name, value)`. -/
def ShaderManager.setVec3Value {R : Type} (sm : ShaderManager R) (name : String)
    (value : Vec3 R) : ShaderManager R :=
  sm ++ [(name, UniformValue.vec3V value)]

/-- The setter `setMat4Value(name, value)`. -/
def ShaderManager.setMat4Value {R : Type} (sm : ShaderManager R) (name : String)
    (value : Mat4 R) : ShaderManager R :=
  sm ++ [(name, UniformValue.mat4V value)]

/-! ## Material registry -/

namespace SceneManager

variable {R : Type}

/-- The loop of `FindMaterial`, over the materials from position `index` on.  On the
first material whose tag compares equal the five fields are copied into the caller's
record (its `tag` field is not assigned) and the loop ends; otherwise `index++`. -/
def FindMaterial.loop (tag : String) :
    List (OBJECT_MATERIAL R) → OBJECT_MATERIAL R → OBJECT_MATERIAL R
  | [], material => material
  | m :: rest, material =>
    if m.tag = tag then
      { material with
        ambientColor := m.ambientColor
        ambientStrength := m.ambientStrength
        diffuseColor := m.diffuseColor
        specularColor := m.specularColor
        shininess := m.shininess }
    else FindMaterial.loop tag rest material

/-- The method `FindMaterial(tag, material)`: the returned boolean, the caller's record after the
call, and the object state after the call. -/
def FindMaterial (self : SceneManager R) (tag : String) (material : OBJECT_MATERIAL R) :
    Bool × OBJECT_MATERIAL R × SceneManager R :=
  if self.m_objectMaterials.length = 0 then
    (false, material, self)
  else
    (true, FindMaterial.loop tag self.m_objectMaterials material, self)

/-- The method `SetShaderMaterial(materialTag)`.  `uninit` is the content of the local record
`OBJECT_MATERIAL material;` before `FindMaterial` runs: the code does not initialise it. -/
def SetShaderMaterial (uninit : OBJECT_MATERIAL R) (self : SceneManager R)
    (materialTag : String) : Except Fault (SceneManager R) :=
  if self.m_objectMaterials.length > 0 then
    match self.FindMaterial materialTag uninit with
    | (true, material, self1) =>
      match self1.m_pShaderManager with
      | none => .error Fault.nullDeref
      | some sm =>
        let sm1 := sm.setVec3Value "material.ambientColor" material.ambientColor
        let sm2 := sm1.setFloatValue "material.ambientStrength" material.ambientStrength
        let sm3 := sm2.setVec3Value "material.diffuseColor" material.diffuseColor
        let sm4 := sm3.setVec3Value "material.specularColor" material.specularColor
        let sm5 := sm4.setFloatValue "material.shininess" material.shininess
        .ok { self1 with m_pShaderManager := some sm5 }
    | (false, _, self1) => .ok self1
  else
    .ok self

end SceneManager

/-! ## Transform composition -/

/-- The scalar functions of the math library the transform code calls:
`glm::radians`, `cos` and `sin`. -/
structure Trig (R : Type) where
  radians : R → R
  cos : R → R
  sin : R → R

/-- The name of the model-matrix uniform. -/
def g_ModelName : String := "model"

section Transform

variable {R : Type} [CommRing R]

/-- The function `glm::scale(v)`: the scaling matrix built on the identity. -/
def glm_scale (v : Vec3 R) : Mat4 R :=
  !![v.x, 0, 0, 0;
     0, v.y, 0, 0;
     0, 0, v.z, 0;
     0, 0, 0, 1]

/-- The function `glm::translate(v)`: the translation matrix built on the identity. -/
def glm_translate (v : Vec3 R) : Mat4 R :=
  !![1, 0, 0, v.x;
     0, 1, 0, v.y;
     0, 0, 1, v.z;
     0, 0, 0, 1]

/-- The function `glm::rotate(angle, axis)`: the axis-angle rotation matrix built on the identity,
entry by entry as GLM computes it from `c = cos(angle)`, `s = sin(angle)` and
`temp = (1 - c) * axis`.  GLM normalises the axis first; the three calls of
`SetTransformations` pass unit axes, which normalisation leaves as they are, so the
axis is taken as given. -/
def glm_rotate (T : Trig R) (angle : R) (axis : Vec3 R) : Mat4 R :=
  let c := T.cos angle
  let s := T.sin angle
  let temp : Vec3 R := ⟨(1 - c) * axis.x, (1 - c) * axis.y, (1 - c) * axis.z⟩
  !![c + temp.x * axis.x, temp.y * axis.x - s * axis.z, temp.z * axis.x + s * axis.y, 0;
     temp.x * axis.y + s * axis.z, c + temp.y * axis.y, temp.z * axis.y - s * axis.x, 0;
     temp.x * axis.z - s * axis.y, temp.y * axis.z + s * axis.x, c + temp.z * axis.z, 0;
     0, 0, 0, 1]

/-- The matrix `modelView` that `SetTransformations` computes. -/
def SceneManager.SetTransformations.modelView (T : Trig R) (scaleXYZ : Vec3 R)
    (XrotationDegrees YrotationDegrees ZrotationDegrees : R) (positionXYZ : Vec3 R) :
    Mat4 R :=
  let scale := glm_scale scaleXYZ
  let rotationX := glm_rotate T (T.radians XrotationDegrees) ⟨1, 0, 0⟩
  let rotationY := glm_rotate T (T.radians YrotationDegrees) ⟨0, 1, 0⟩
  let rotationZ := glm_rotate T (T.radians ZrotationDegrees) ⟨0, 0, 1⟩
  let translation := glm_translate positionXYZ
  translation * rotationX * rotationY * rotationZ * scale

/-- The method `SetTransformations(scaleXYZ, XrotationDegrees, YrotationDegrees, ZrotationDegrees,
positionXYZ)`. -/
def SceneManager.SetTransformations (T : Trig R) (self : SceneManager R) (scaleXYZ : Vec3 R)
    (XrotationDegrees YrotationDegrees ZrotationDegrees : R) (positionXYZ : Vec3 R) :
    SceneManager R :=
  let modelView := SceneManager.SetTransformations.modelView T scaleXYZ XrotationDegrees
    YrotationDegrees ZrotationDegrees positionXYZ
  match self.m_pShaderManager with
  | some sm => { self with m_pShaderManager := some (sm.setMat4Value g_ModelName modelView) }
  | none => self

/-! ### Reference matrices and point maps, as the specification names them -/

end Transform

/-- Cosine and sine over the rationals at whole quarter turns.  The angle stays in
degrees (`radians` hands it through, as π is not rational); `cos` and `sin` are exact at
0, 90, 180 and 270 degrees, and every other angle is treated as 0 degrees. -/
def trigQuarterTurns : Trig ℚ where
  radians d := d
  cos d := if d = 90 then 0 else if d = 180 then -1 else if d = 270 then 0 else 1
  sin d := if d = 90 then 1 else if d = 180 then 0 else if d = 270 then -1 else 0

/-! ## Remaining setters, texture binding and teardown, colour and texture pushes -/

/-- The setter `setBoolValue(name, value)`. -/
def ShaderManager.setBoolValue {R : Type} (sm : ShaderManager R) (name : String)
    (value : Bool) : ShaderManager R :=
  sm ++ [(name, UniformValue.boolV value)]

/-- The setter `setVec2Value(name, value)`. -/
def ShaderManager.setVec2Value {R : Type} (sm : ShaderManager R) (name : String)
    (value : Vec2 R) : ShaderManager R :=
  sm ++ [(name, UniformValue.vec2V value)]

/-- The setter `setVec4Value(name, value)`. -/
def ShaderManager.setVec4Value {R : Type} (sm : ShaderManager R) (name : String)
    (value : Vec4 R) : ShaderManager R :=
  sm ++ [(name, UniformValue.vec4V value)]

/-- The setter `setSampler2DValue(name, value)`. -/
def ShaderManager.setSampler2DValue {R : Type} (sm : ShaderManager R) (name : String)
    (value : Int) : ShaderManager R :=
  sm ++ [(name, UniformValue.sampler2DV value)]

/-- The name of the flat-colour uniform. -/
def g_ColorValueName : String := "objectColor"

/-- The name of the sampler uniform. -/
def g_TextureValueName : String := "objectTexture"

/-- The name of the texture-enable flag. -/
def g_UseTextureName : String := "bUseTexture"

/-- The name of the lighting-enable flag. -/
def g_UseLightingName : String := "bUseLighting"

namespace SceneManager

variable {R : Type}

/-- The loop of `BindGLTextures`; `remaining` is `m_loadedTextures - i`. -/
def BindGLTextures.loop (ids : List TEXTURE_INFO) : Nat → Nat → GLState → Except Fault GLState
  | 0, _, gl => .ok gl
  | remaining + 1, i, gl =>
    match ids[i]? with
    | none => .error Fault.outOfBounds
    | some e =>
      BindGLTextures.loop ids remaining (i + 1) (glBindTexture (glActiveTexture gl i) e.ID)

/-- The method `BindGLTextures()`. -/
def BindGLTextures (self : SceneManager R) (gl : GLState) : Except Fault GLState :=
  BindGLTextures.loop self.m_textureIDs self.m_loadedTextures 0 gl

/-- The loop of `DestroyGLTextures`; `remaining` is `m_loadedTextures - i`.  Each round
lets `glGenTextures` write a new name into the `ID` field of slot `i`. -/
def DestroyGLTextures.loop (drv : GLDriver) :
    Nat → Nat → List TEXTURE_INFO → GLState → Except Fault (List TEXTURE_INFO × GLState)
  | 0, _, ids, gl => .ok (ids, gl)
  | remaining + 1, i, ids, gl =>
    match ids[i]? with
    | none => .error Fault.outOfBounds
    | some e =>
      let (id, gl1) := glGenTextures drv gl
      DestroyGLTextures.loop drv remaining (i + 1) (ids.set i { e with ID := id }) gl1

/-- The method `DestroyGLTextures()`. -/
def DestroyGLTextures (drv : GLDriver) (self : SceneManager R) (gl : GLState) :
    Except Fault (SceneManager R × GLState) :=
  match DestroyGLTextures.loop drv self.m_loadedTextures 0 self.m_textureIDs gl with
  | .error e => .error e
  | .ok (ids, gl1) => .ok ({ self with m_textureIDs := ids }, gl1)

/-- The method `SetShaderColor(redColorValue, greenColorValue, blueColorValue,
alphaValue)`.  The `false` passed to `setIntValue` is the integer 0. -/
def SetShaderColor (self : SceneManager R)
    (redColorValue greenColorValue blueColorValue alphaValue : R) : SceneManager R :=
  let currentColor : Vec4 R := ⟨redColorValue, greenColorValue, blueColorValue, alphaValue⟩
  match self.m_pShaderManager with
  | some sm =>
    let sm1 := sm.setIntValue g_UseTextureName 0
    let sm2 := sm1.setVec4Value g_ColorValueName currentColor
    { self with m_pShaderManager := some sm2 }
  | none => self

/-- The method `SetShaderTexture(textureTag)`.  The `true` passed to `setIntValue` is
the integer 1. -/
def SetShaderTexture (self : SceneManager R) (textureTag : String) :
    Except Fault (SceneManager R) :=
  match self.m_pShaderManager with
  | some sm =>
    let sm1 := sm.setIntValue g_UseTextureName 1
    match self.FindTextureSlot textureTag with
    | .error e => .error e
    | .ok textureID =>
      .ok { self with m_pShaderManager := some (sm1.setSampler2DValue g_TextureValueName textureID) }
  | none => .ok self

/-- The method `SetTextureUVScale(u, v)`. -/
def SetTextureUVScale (self : SceneManager R) (u v : R) : SceneManager R :=
  match self.m_pShaderManager with
  | some sm => { self with m_pShaderManager := some (sm.setVec2Value "UVscale" ⟨u, v⟩) }
  | none => self

/-- The names the driver hands out in `n` successive `glGenTextures` calls, starting
from the context whose generated names are `names`, are all unused when handed out. -/
def FreshRun (drv : GLDriver) : Nat → List GLuint → Prop
  | 0, _ => True
  | n + 1, names =>
    drv names % 2 ^ 32 ∉ names ∧ FreshRun drv n (names ++ [drv names % 2 ^ 32])

end SceneManager

/-- The current value of a uniform in the shader the scene manager points to; `none`
when the pointer is NULL or the uniform was never written. -/
def SceneManager.uniform {R : Type} (self : SceneManager R) (name : String) :
    Option (UniformValue R) :=
  match self.m_pShaderManager with
  | some sm => sm.uniform name
  | none => none

/-! ## Concrete states used to evaluate the model -/

/-- A texture array of 16 slots whose first two hold the tags `a` and `b`. -/
def registryAB : SceneManager ℚ :=
  { m_pShaderManager := none
    m_textureIDs := [⟨1, "a"⟩, ⟨2, "b"⟩] ++ List.replicate 14 ⟨0, ""⟩
    m_loadedTextures := 2
    m_objectMaterials := [] }

/-- A registry of 16 unused slots. -/
def registryEmpty : SceneManager ℚ :=
  { m_pShaderManager := none
    m_textureIDs := List.replicate 16 ⟨0, ""⟩
    m_loadedTextures := 0
    m_objectMaterials := [] }

/-- A context with no texture generated and nothing bound. -/
def glInitial : GLState :=
  { generated := [], activeTexture := 0, boundTexture2D := fun _ => 0, uploads := [] }

/-- A driver that hands out the names 1, 2, 3, ... -/
def drvSequential : GLDriver := fun names => names.length + 1

/-- A disk holding a 3-channel `wood.jpg`, a 4-channel `leaf.png` and a 1-channel
`mask.gray`; no other file decodes. -/
def diskSample : String → Option IMAGE := fun filename =>
  if filename = "wood.jpg" then some ⟨64, 64, 3⟩
  else if filename = "leaf.png" then some ⟨64, 32, 4⟩
  else if filename = "mask.gray" then some ⟨16, 16, 1⟩
  else none

/-- Two registration requests, as `(filename, tag)`. -/
def requestsSample : List (String × String) := [("wood.jpg", "wood"), ("leaf.png", "leaf")]

/-- The wood material of `DefineObjectMaterials`, with the decimal literals read as
rationals. -/
def woodMaterial : OBJECT_MATERIAL ℚ :=
  { ambientColor := ⟨0.2, 0.15, 0.1⟩
    ambientStrength := 0.3
    diffuseColor := ⟨0.6, 0.4, 0.2⟩
    specularColor := ⟨0.3, 0.3, 0.3⟩
    shininess := 16
    tag := "wood" }

/-- The metal material of `DefineObjectMaterials`. -/
def metalMaterial : OBJECT_MATERIAL ℚ :=
  { ambientColor := ⟨0.15, 0.15, 0.15⟩
    ambientStrength := 0.2
    diffuseColor := ⟨0.5, 0.5, 0.5⟩
    specularColor := ⟨1, 1, 1⟩
    shininess := 128
    tag := "metal" }

/-- A second material tagged `wood`, behind the first in `sceneWoodMetal`. -/
def woodShadow : OBJECT_MATERIAL ℚ :=
  { ambientColor := ⟨0, 0, 0⟩
    ambientStrength := 0
    diffuseColor := ⟨0, 0, 0⟩
    specularColor := ⟨0, 0, 0⟩
    shininess := 1
    tag := "wood" }

/-- Some content of a record that was never initialised. -/
def staleRecord : OBJECT_MATERIAL ℚ :=
  { ambientColor := ⟨-1, -2, -3⟩
    ambientStrength := -4
    diffuseColor := ⟨-5, -6, -7⟩
    specularColor := ⟨-8, -9, -10⟩
    shininess := -11
    tag := "" }

/-- The five uniform writes that push the wood material. -/
def woodUniforms : ShaderManager ℚ :=
  [("material.ambientColor", UniformValue.vec3V ⟨0.2, 0.15, 0.1⟩),
   ("material.ambientStrength", UniformValue.floatV 0.3),
   ("material.diffuseColor", UniformValue.vec3V ⟨0.6, 0.4, 0.2⟩),
   ("material.specularColor", UniformValue.vec3V ⟨0.3, 0.3, 0.3⟩),
   ("material.shininess", UniformValue.floatV 16)]

/-- A scene manager with a shader attached on which the wood material has been pushed,
and three materials defined: metal, wood, and a second entry tagged wood. -/
def sceneWoodMetal : SceneManager ℚ :=
  { m_pShaderManager := some woodUniforms
    m_textureIDs := List.replicate 16 ⟨0, ""⟩
    m_loadedTextures := 0
    m_objectMaterials := [metalMaterial, woodMaterial, woodShadow] }

/-- The registry holding `a` and `b`, with a shader attached that has no uniform
written yet. -/
def sceneAB : SceneManager ℚ :=
  { registryAB with m_pShaderManager := some [] }

/-- A registry of 16 slots, all used, with a shader attached. -/
def registryFull : SceneManager ℚ :=
  { m_pShaderManager := some []
    m_textureIDs := List.replicate 16 ⟨7, "t"⟩
    m_loadedTextures := 16
    m_objectMaterials := [] }

/-- A context in which the names 1 and 2 have been generated and nothing is bound. -/
def glTwoNames : GLState :=
  { generated := [1, 2], activeTexture := 0, boundTexture2D := fun _ => 0, uploads := [] }

/-! ## The scene: materials, lights, preparation, rendering -/

/-- The plastic material of `DefineObjectMaterials`. -/
def plasticMaterial : OBJECT_MATERIAL ℚ :=
  { ambientColor := ⟨0.1, 0.1, 0.1⟩
    ambientStrength := 0.2
    diffuseColor := ⟨0.8, 0.8, 0.8⟩
    specularColor := ⟨0.9, 0.9, 0.9⟩
    shininess := 85
    tag := "plastic" }

/-- The ceramic material of `DefineObjectMaterials`. -/
def ceramicMaterial : OBJECT_MATERIAL ℚ :=
  { ambientColor := ⟨0.2, 0.2, 0.2⟩
    ambientStrength := 0.3
    diffuseColor := ⟨0.7, 0.7, 0.7⟩
    specularColor := ⟨0.8, 0.8, 0.8⟩
    shininess := 64
    tag := "ceramic" }

/-- The plant material of `DefineObjectMaterials`. -/
def plantMaterial : OBJECT_MATERIAL ℚ :=
  { ambientColor := ⟨0.1, 0.2, 0.1⟩
    ambientStrength := 0.4
    diffuseColor := ⟨0.3, 0.6, 0.3⟩
    specularColor := ⟨0.2, 0.4, 0.2⟩
    shininess := 16
    tag := "plant" }

/-- The helper `DefineObjectMaterials(sceneManager, materials)`: five `push_back` calls
on the material vector, in source order.  The `sceneManager` argument is unused. -/
def DefineObjectMaterials (materials : List (OBJECT_MATERIAL ℚ)) : List (OBJECT_MATERIAL ℚ) :=
  materials ++ [woodMaterial] ++ [plasticMaterial] ++ [ceramicMaterial] ++ [metalMaterial] ++
    [plantMaterial]

/-- The helper `SetupSceneLights(shaderManager)`: 25 uniform writes through the pointer,
which the helper does not test. -/
def SetupSceneLights (shaderManager : Option (ShaderManager ℚ)) :
    Except Fault (ShaderManager ℚ) :=
  match shaderManager with
  | none => .error Fault.nullDeref
  | some sm =>
    .ok (sm
      |>.setBoolValue g_UseLightingName true
      |>.setVec3Value "lightSources[0].position" ⟨0, 18, 2⟩
      |>.setVec3Value "lightSources[0].ambientColor" ⟨0.35, 0.32, 0.28⟩
      |>.setVec3Value "lightSources[0].diffuseColor" ⟨1, 0.95, 0.85⟩
      |>.setVec3Value "lightSources[0].specularColor" ⟨0.9, 0.9, 0.85⟩
      |>.setFloatValue "lightSources[0].focalStrength" 48
      |>.setFloatValue "lightSources[0].specularIntensity" 0.6
      |>.setVec3Value "lightSources[1].position" ⟨-12, 8, 3⟩
      |>.setVec3Value "lightSources[1].ambientColor" ⟨0.15, 0.12, 0.08⟩
      |>.setVec3Value "lightSources[1].diffuseColor" ⟨0.9, 0.85, 0.7⟩
      |>.setVec3Value "lightSources[1].specularColor" ⟨0.8, 0.75, 0.65⟩
      |>.setFloatValue "lightSources[1].focalStrength" 24
      |>.setFloatValue "lightSources[1].specularIntensity" 0.5
      |>.setVec3Value "lightSources[2].position" ⟨20, 12, 5⟩
      |>.setVec3Value "lightSources[2].ambientColor" ⟨0.12, 0.15, 0.18⟩
      |>.setVec3Value "lightSources[2].diffuseColor" ⟨0.7, 0.8, 0.95⟩
      |>.setVec3Value "lightSources[2].specularColor" ⟨0.85, 0.9, 1⟩
      |>.setFloatValue "lightSources[2].focalStrength" 20
      |>.setFloatValue "lightSources[2].specularIntensity" 0.4
      |>.setVec3Value "lightSources[3].position" ⟨0, 5, 0⟩
      |>.setVec3Value "lightSources[3].ambientColor" ⟨0.05, 0.08, 0.12⟩
      |>.setVec3Value "lightSources[3].diffuseColor" ⟨0.4, 0.6, 0.9⟩
      |>.setVec3Value "lightSources[3].specularColor" ⟨0.5, 0.7, 1⟩
      |>.setFloatValue "lightSources[3].focalStrength" 12
      |>.setFloatValue "lightSources[3].specularIntensity" 0.3)

/-- The mesh kinds of the mesh library. -/
inductive MeshKind where
  | plane
  | torus
  | box
  | taperedCylinder
  | sphere
  | cone
  | cylinder
  | prism
  deriving DecidableEq, Repr

/-- One statement of `RenderScene` that reaches a collaborator: a state push of the
scene manager with its arguments, or a draw call of the mesh library. -/
inductive Call (R : Type) where
  | setTransformations (scaleXYZ : Vec3 R) (XrotationDegrees YrotationDegrees
      ZrotationDegrees : R) (positionXYZ : Vec3 R)
  | setShaderColor (redColorValue greenColorValue blueColorValue alphaValue : R)
  | setShaderTexture (textureTag : String)
  | setTextureUVScale (u v : R)
  | setShaderMaterial (materialTag : String)
  | draw (mesh : MeshKind)

namespace SceneManager

/-- The `(filename, tag)` pairs of the seven `CreateGLTexture` calls of `PrepareScene`,
in source order. -/
def PrepareScene.textures : List (String × String) :=
  [("textures/plantBox.jpg", "plantBox"),
   ("textures/plantStem.jpg", "plantStem"),
   ("textures/plantLeaf.png", "plantLeaf"),
   ("textures/Wood/Wood069_1K-JPG_Color.jpg", "woodDesk"),
   ("textures/Wallpaper/Wallpaper001B_1K-JPG_Color.jpg", "wallpaper"),
   ("textures/Tiles/Tiles081_1K-JPG_Color.jpg", "floorTiles"),
   ("textures/Clay/RoofingTiles015C_1K-JPG_Color.jpg", "clay")]

/-- The method `PrepareScene()`.  The eight mesh loads belong to the mesh library and
leave the modelled state alone; the results of the `CreateGLTexture` calls are
discarded, as in the source. -/
def PrepareScene (drv : GLDriver) (stbi_load : String → Option IMAGE)
    (self : SceneManager ℚ) (gl : GLState) : Except Fault (SceneManager ℚ × GLState) :=
  match CreateGLTextures drv stbi_load PrepareScene.textures self gl with
  | .error e => .error e
  | .ok (_, self1, gl1) =>
    match self1.BindGLTextures gl1 with
    | .error e => .error e
    | .ok gl2 =>
      let self2 := { self1 with
        m_objectMaterials := DefineObjectMaterials self1.m_objectMaterials }
      match SetupSceneLights self2.m_pShaderManager with
      | .error e => .error e
      | .ok sm => .ok ({ self2 with m_pShaderManager := some sm }, gl2)

/-- Statements of `RenderScene()`, draw calls 1 to 6, in source order. -/
def RenderScene.calls1 : List (Call ℚ) :=
  [
    .setTransformations ⟨50, 1, 50⟩ 0 0 0 ⟨0, 0, 0⟩,
    .setShaderMaterial "ceramic",
    .setShaderTexture "floorTiles",
    .setTextureUVScale 15 15,
    .draw .plane,
    .setTransformations ⟨16, 0.4, 8⟩ 0 0 0 ⟨0, 3, 0⟩,
    .setShaderMaterial "wood",
    .setShaderTexture "woodDesk",
    .setTextureUVScale 3 2,
    .draw .box,
    .setTransformations ⟨0.6, 3, 0.6⟩ 0 0 0 ⟨-7, 1.5, 3.5⟩,
    .setShaderMaterial "wood",
    .setShaderTexture "woodDesk",
    .setTextureUVScale 1 2,
    .draw .box,
    .setTransformations ⟨0.6, 3, 0.6⟩ 0 0 0 ⟨7, 1.5, 3.5⟩,
    .setShaderMaterial "wood",
    .setShaderTexture "woodDesk",
    .setTextureUVScale 1 2,
    .draw .box,
    .setTransformations ⟨0.6, 3, 0.6⟩ 0 0 0 ⟨-7, 1.5, -3.5⟩,
    .setShaderMaterial "wood",
    .setShaderTexture "woodDesk",
    .setTextureUVScale 1 2,
    .draw .box,
    .setTransformations ⟨0.6, 3, 0.6⟩ 0 0 0 ⟨7, 1.5, -3.5⟩,
    .setShaderMaterial "wood",
    .setShaderTexture "woodDesk",
    .setTextureUVScale 1 2,
    .draw .box
  ]

/-- Statements of `RenderScene()`, draw calls 7 to 12, in source order. -/
def RenderScene.calls2 : List (Call ℚ) :=
  [
    .setTransformations ⟨50, 20, 0.3⟩ 0 0 0 ⟨0, 10, -15⟩,
    .setShaderMaterial "wood",
    .setShaderTexture "wallpaper",
    .setTextureUVScale 10 8,
    .draw .box,
    .setTransformations ⟨0.3, 20, 30⟩ 0 0 0 ⟨-25, 10, 0⟩,
    .setShaderMaterial "wood",
    .setShaderTexture "wallpaper",
    .setTextureUVScale 8 8,
    .draw .box,
    .setTransformations ⟨0.3, 20, 30⟩ 0 0 0 ⟨25, 10, 0⟩,
    .setShaderMaterial "wood",
    .setShaderTexture "wallpaper",
    .setTextureUVScale 8 8,
    .draw .box,
    .setTransformations ⟨5, 3.5, 0.2⟩ 0 0 0 ⟨-10, 12, -14.7⟩,
    .setShaderMaterial "wood",
    .setShaderColor 0.2 0.15 0.1 1,
    .draw .box,
    .setTransformations ⟨4.4, 2.9, 0.15⟩ 0 0 0 ⟨-10, 12, -14.55⟩,
    .setShaderMaterial "ceramic",
    .setShaderColor 0.95 0.92 0.88 1,
    .draw .box,
    .setTransformations ⟨3.8, 0.8, 0.12⟩ 0 0 0 ⟨-10, 11, -14.5⟩,
    .setShaderMaterial "ceramic",
    .setShaderColor 0.25 0.35 0.45 1,
    .draw .box
  ]

/-- Statements of `RenderScene()`, draw calls 13 to 18, in source order. -/
def RenderScene.calls3 : List (Call ℚ) :=
  [
    .setTransformations ⟨0.6, 0.6, 0.6⟩ 0 0 0 ⟨-9, 12.8, -14.5⟩,
    .setShaderMaterial "ceramic",
    .setShaderColor 0.95 0.75 0.35 1,
    .draw .sphere,
    .setTransformations ⟨0.3, 1.2, 0.11⟩ 0 0 15 ⟨-12, 12, -14.48⟩,
    .setShaderMaterial "ceramic",
    .setShaderColor 0.45 0.55 0.35 1,
    .draw .box,
    .setTransformations ⟨0.4, 0.7, 0.4⟩ 0 0 0 ⟨-5.5, 3.2, 2⟩,
    .setShaderMaterial "plastic",
    .setShaderColor 0.3 0.3 0.35 1,
    .draw .cylinder,
    .setTransformations ⟨0.05, 0.6, 0.05⟩ 0 0 0 ⟨-5.3, 3.9, 2.1⟩,
    .setShaderMaterial "plastic",
    .setShaderColor 0.408 0.851 0.988 1,
    .draw .cylinder,
    .setTransformations ⟨0.05, 0.6, 0.05⟩ 0 0 0 ⟨-5.4, 3.9, 1.8⟩,
    .setShaderColor 0.953 0.274 0.274 1,
    .draw .cylinder,
    .setTransformations ⟨0.05, 0.6, 0.05⟩ 0 0 0 ⟨-5.55, 3.9, 2.05⟩,
    .setShaderColor 0.612 0.569 0.564 1,
    .draw .cylinder
  ]

/-- Statements of `RenderScene()`, draw calls 19 to 24, in source order. -/
def RenderScene.calls4 : List (Call ℚ) :=
  [
    .setTransformations ⟨0.05, 0.6, 0.05⟩ 0 0 0 ⟨-5.7, 3.9, 2.2⟩,
    .setShaderColor 0.235 0.909 0.266 1,
    .draw .cylinder,
    .setTransformations ⟨0.05, 0.6, 0.05⟩ 0 0 0 ⟨-5.2, 3.9, 2.2⟩,
    .setShaderColor 0.235 0.909 0.266 1,
    .draw .cylinder,
    .setTransformations ⟨0.05, 0.6, 0.05⟩ 0 0 0 ⟨-5.2, 3.9, 1.95⟩,
    .setShaderColor 0.987 0.987 0.165 1,
    .draw .cylinder,
    .setTransformations ⟨0.05, 0.6, 0.05⟩ 0 0 0 ⟨-5.6, 3.9, 1.85⟩,
    .setShaderColor 0.247 0.145 1 1,
    .draw .cylinder,
    .setTransformations ⟨0.05, 0.6, 0.05⟩ 0 0 0 ⟨-5.7, 3.9, 1.9⟩,
    .setShaderColor 0.987 0.987 0.165 1,
    .draw .cylinder,
    .setTransformations ⟨1.5, 0.15, 1⟩ 0 0 0 ⟨0, 3.2, -1.5⟩,
    .setShaderMaterial "metal",
    .setShaderColor 0.2 0.2 0.2 1,
    .draw .box
  ]

/-- Statements of `RenderScene()`, draw calls 25 to 30, in source order. -/
def RenderScene.calls5 : List (Call ℚ) :=
  [
    .setTransformations ⟨0.2, 1.5, 0.2⟩ 0 0 0 ⟨0, 3.3, -1.5⟩,
    .setShaderMaterial "metal",
    .setShaderColor 0.2 0.2 0.2 1,
    .draw .cylinder,
    .setTransformations ⟨5, 3, 0.3⟩ 0 0 0 ⟨0, 5, -1.5⟩,
    .setShaderMaterial "plastic",
    .setShaderColor 0.1 0.1 0.12 1,
    .draw .box,
    .setTransformations ⟨4.6, 2.6, 0.25⟩ 0 0 0 ⟨0, 5, -1.4⟩,
    .setShaderMaterial "plastic",
    .setShaderColor 0.3 0.5 0.7 1,
    .draw .box,
    .setTransformations ⟨3.5, 0.15, 1.5⟩ 0 0 0 ⟨0, 3.2, 2⟩,
    .setShaderMaterial "plastic",
    .setShaderColor 0.15 0.15 0.15 1,
    .draw .box,
    .setTransformations ⟨0.6, 0.3, 0.8⟩ 0 (-20) 0 ⟨4.5, 3.2, 1.8⟩,
    .setShaderMaterial "plastic",
    .setShaderColor 0.2 0.2 0.25 1,
    .draw .box,
    .setTransformations ⟨0.6, 0.8, 0.6⟩ 0 45 0 ⟨-6, 3.2, -2.5⟩,
    .setShaderMaterial "ceramic",
    .setShaderTexture "clay",
    .setTextureUVScale 1 1,
    .draw .taperedCylinder
  ]

/-- Statements of `RenderScene()`, draw calls 31 to 36, in source order. -/
def RenderScene.calls6 : List (Call ℚ) :=
  [
    .setTransformations ⟨0.35, 0.45, 0.35⟩ 100 0 90 ⟨-6, 4, -2.5⟩,
    .setShaderMaterial "ceramic",
    .setShaderColor 0.753 0.216 0.765 1,
    .draw .torus,
    .setTransformations ⟨0.6, 0.6, 0.6⟩ 0 0 0 ⟨6, 3.2, -2.5⟩,
    .setShaderMaterial "ceramic",
    .setShaderTexture "plantBox",
    .setTextureUVScale 1 1,
    .draw .box,
    .setTransformations ⟨0.06, 1.5, 0.06⟩ 0 0 0 ⟨6, 3.4, -2.5⟩,
    .setShaderMaterial "plant",
    .setShaderTexture "plantStem",
    .setTextureUVScale 1 1,
    .draw .cylinder,
    .setTransformations ⟨0.4, 0, 0.3⟩ 90 0 0 ⟨6, 4.02, -2.5⟩,
    .setShaderMaterial "plant",
    .setShaderTexture "plantLeaf",
    .setTextureUVScale 1 1,
    .draw .prism,
    .setTransformations ⟨0.4, 0, 0.3⟩ 90 0 0 ⟨6, 4.32, -2.5⟩,
    .setShaderMaterial "plant",
    .setShaderTexture "plantLeaf",
    .setTextureUVScale 1 1,
    .draw .prism,
    .setTransformations ⟨0.4, 0, 0.3⟩ 90 0 0 ⟨6, 4.62, -2.5⟩,
    .setShaderMaterial "plant",
    .setShaderTexture "plantLeaf",
    .setTextureUVScale 1 1,
    .draw .prism
  ]

/-- The statements of `RenderScene()` in source order, with the local variables
`scaleXYZ`, `XrotationDegrees`, `YrotationDegrees`, `ZrotationDegrees` and `positionXYZ`
replaced by the values they hold at the call. -/
def RenderScene.calls : List (Call ℚ) :=
  SceneManager.RenderScene.calls1 ++
    SceneManager.RenderScene.calls2 ++
    SceneManager.RenderScene.calls3 ++
    SceneManager.RenderScene.calls4 ++
    SceneManager.RenderScene.calls5 ++
    SceneManager.RenderScene.calls6

/-- One statement of `RenderScene` executed: the new object state and the draw calls
issued so far. -/
def RenderScene.step (T : Trig ℚ) (uninit : OBJECT_MATERIAL ℚ) :
    SceneManager ℚ × List MeshKind → Call ℚ → Except Fault (SceneManager ℚ × List MeshKind)
  | (self, drawn), .setTransformations scaleXYZ xd yd zd positionXYZ =>
    .ok (self.SetTransformations T scaleXYZ xd yd zd positionXYZ, drawn)
  | (self, drawn), .setShaderColor r g b a => .ok (self.SetShaderColor r g b a, drawn)
  | (self, drawn), .setShaderTexture textureTag =>
    match self.SetShaderTexture textureTag with
    | .error e => .error e
    | .ok self1 => .ok (self1, drawn)
  | (self, drawn), .setTextureUVScale u v => .ok (self.SetTextureUVScale u v, drawn)
  | (self, drawn), .setShaderMaterial materialTag =>
    match SetShaderMaterial uninit self materialTag with
    | .error e => .error e
    | .ok self1 => .ok (self1, drawn)
  | (self, drawn), .draw mesh => .ok (self, drawn ++ [mesh])

/-- A list of statements executed in order. -/
def RenderScene.run (T : Trig ℚ) (uninit : OBJECT_MATERIAL ℚ) :
    List (Call ℚ) → SceneManager ℚ × List MeshKind →
      Except Fault (SceneManager ℚ × List MeshKind)
  | [], st => .ok st
  | c :: rest, st =>
    match RenderScene.step T uninit st c with
    | .error e => .error e
    | .ok st1 => RenderScene.run T uninit rest st1

/-- The method `RenderScene()`. -/
def RenderScene (T : Trig ℚ) (uninit : OBJECT_MATERIAL ℚ) (self : SceneManager ℚ) :
    Except Fault (SceneManager ℚ × List MeshKind) :=
  SceneManager.RenderScene.run T uninit SceneManager.RenderScene.calls (self, [])

/-- The material tags passed to `SetShaderMaterial` in a list of statements. -/
def materialTagsUsed {R : Type} (cs : List (Call R)) : List String :=
  cs.filterMap fun c => match c with | .setShaderMaterial t => some t | _ => none

/-- The texture tags passed to `SetShaderTexture` in a list of statements. -/
def textureTagsUsed {R : Type} (cs : List (Call R)) : List String :=
  cs.filterMap fun c => match c with | .setShaderTexture t => some t | _ => none

end SceneManager

/-- A registry of 16 unused slots with a shader attached and no material defined: the
state in which `PrepareScene` is first called. -/
def sceneFresh : SceneManager ℚ :=
  { registryEmpty with m_pShaderManager := some [] }

/-- A disk on which the seven texture files of `PrepareScene` decode (the `.png` with 4
channels, the others with 3) and no other file does. -/
def diskScene : String → Option IMAGE := fun filename =>
  if filename = "textures/plantLeaf.png" then some ⟨1024, 1024, 4⟩
  else if filename ∈ SceneManager.PrepareScene.textures.map Prod.fst then
    some ⟨1024, 1024, 3⟩
  else none

/-! ## Lemmas on the two lookup loops -/

namespace SceneManager

variable {R : Type}

theorem FindTextureSlot_loop_absent (ids : List TEXTURE_INFO) (tag : String) :
    ∀ (remaining index : Nat),
      (∀ j, j < remaining → ∃ e, ids[index + j]? = some e ∧ e.tag ≠ tag) →
      FindTextureSlot.loop ids tag remaining index = .ok (-1) := by
  intro remaining
  induction remaining with
  | zero => intro index _; rfl
  | succ n ih =>
    intro index h
    obtain ⟨e, he, hne⟩ := h 0 (Nat.succ_pos n)
    have he0 : ids[index]? = some e := by simpa using he
    have hrest : ∀ j, j < n → ∃ e, ids[index + 1 + j]? = some e ∧ e.tag ≠ tag := by
      intro j hj
      have := h (j + 1) (Nat.succ_lt_succ hj)
      rwa [show index + (j + 1) = index + 1 + j by omega] at this
    simp only [FindTextureSlot.loop, he0, if_neg hne]
    exact ih (index + 1) hrest

theorem FindTextureSlot_loop_found (ids : List TEXTURE_INFO) (tag : String) :
    ∀ (k remaining index : Nat), k < remaining →
      (∃ e, ids[index + k]? = some e ∧ e.tag = tag) →
      (∀ j, j < k → ∃ e, ids[index + j]? = some e ∧ e.tag ≠ tag) →
      FindTextureSlot.loop ids tag remaining index = .ok ((index + k : Nat) : Int) := by
  intro k
  induction k with
  | zero =>
    intro remaining index hk hfound _
    obtain ⟨e, he, htag⟩ := hfound
    obtain ⟨n, rfl⟩ : ∃ n, remaining = n + 1 := ⟨remaining - 1, by omega⟩
    have he0 : ids[index]? = some e := by simpa using he
    simp [FindTextureSlot.loop, he0, htag]
  | succ k ih =>
    intro remaining index hk hfound hbefore
    obtain ⟨n, rfl⟩ : ∃ n, remaining = n + 1 := ⟨remaining - 1, by omega⟩
    obtain ⟨e, he, hne⟩ := hbefore 0 (Nat.succ_pos k)
    have he0 : ids[index]? = some e := by simpa using he
    have hfound1 : ∃ e, ids[index + 1 + k]? = some e ∧ e.tag = tag := by
      rwa [show index + (k + 1) = index + 1 + k by omega] at hfound
    have hbefore1 : ∀ j, j < k → ∃ e, ids[index + 1 + j]? = some e ∧ e.tag ≠ tag := by
      intro j hj
      have := hbefore (j + 1) (Nat.succ_lt_succ hj)
      rwa [show index + (j + 1) = index + 1 + j by omega] at this
    simp only [FindTextureSlot.loop, he0, if_neg hne]
    rw [ih n (index + 1) (by omega) hfound1 hbefore1]
    congr 2
    omega

theorem FindTextureID_loop_found (ids : List TEXTURE_INFO) (tag : String) :
    ∀ (k remaining index : Nat) (e : TEXTURE_INFO), k < remaining →
      ids[index + k]? = some e → e.tag = tag →
      (∀ j, j < k → ∃ e, ids[index + j]? = some e ∧ e.tag ≠ tag) →
      FindTextureID.loop ids tag remaining index = .ok (GLuint_to_int e.ID) := by
  intro k
  induction k with
  | zero =>
    intro remaining index e hk he htag _
    obtain ⟨n, rfl⟩ : ∃ n, remaining = n + 1 := ⟨remaining - 1, by omega⟩
    have he0 : ids[index]? = some e := by simpa using he
    simp [FindTextureID.loop, he0, htag]
  | succ k ih =>
    intro remaining index e hk he htag hbefore
    obtain ⟨n, rfl⟩ : ∃ n, remaining = n + 1 := ⟨remaining - 1, by omega⟩
    obtain ⟨e0, he0, hne⟩ := hbefore 0 (Nat.succ_pos k)
    have he0 : ids[index]? = some e0 := by simpa using he0
    have he1 : ids[index + 1 + k]? = some e := by
      rwa [show index + (k + 1) = index + 1 + k by omega] at he
    have hbefore1 : ∀ j, j < k → ∃ e, ids[index + 1 + j]? = some e ∧ e.tag ≠ tag := by
      intro j hj
      have := hbefore (j + 1) (Nat.succ_lt_succ hj)
      rwa [show index + (j + 1) = index + 1 + j by omega] at this
    simp only [FindTextureID.loop, he0, if_neg hne]
    exact ih n (index + 1) e (by omega) he1 htag hbefore1

theorem FindTextureID_loop_absent (ids : List TEXTURE_INFO) (tag : String) :
    ∀ (remaining index : Nat),
      (∀ j, j < remaining → ∃ e, ids[index + j]? = some e ∧ e.tag ≠ tag) →
      FindTextureID.loop ids tag remaining index = .ok (-1) := by
  intro remaining
  induction remaining with
  | zero => intro index _; rfl
  | succ n ih =>
    intro index h
    obtain ⟨e, he, hne⟩ := h 0 (Nat.succ_pos n)
    have he0 : ids[index]? = some e := by simpa using he
    have hrest : ∀ j, j < n → ∃ e, ids[index + 1 + j]? = some e ∧ e.tag ≠ tag := by
      intro j hj
      have := h (j + 1) (Nat.succ_lt_succ hj)
      rwa [show index + (j + 1) = index + 1 + j by omega] at this
    simp only [FindTextureID.loop, he0, if_neg hne]
    exact ih (index + 1) hrest

/-- Every slot inside the array holds an entry. -/
theorem entry_exists (ids : List TEXTURE_INFO) (i : Nat) (h : i < ids.length) :
    ∃ e, ids[i]? = some e :=
  ⟨ids[i], List.getElem?_eq_getElem h⟩

theorem tagAt_ne (self : SceneManager R) (tag : String) (i : Nat)
    (hi : i < self.m_textureIDs.length) (h : self.tagAt i ≠ some tag) :
    ∃ e, self.m_textureIDs[0 + i]? = some e ∧ e.tag ≠ tag := by
  obtain ⟨e, he⟩ := entry_exists self.m_textureIDs i hi
  refine ⟨e, by simpa using he, ?_⟩
  intro htag
  apply h
  simp [tagAt, he, htag]

theorem tagAt_eq (self : SceneManager R) (tag : String) (i : Nat)
    (h : self.tagAt i = some tag) :
    ∃ e, self.m_textureIDs[0 + i]? = some e ∧ e.tag = tag := by
  unfold tagAt at h
  cases he : self.m_textureIDs[i]? with
  | none => simp [he] at h
  | some e =>
    refine ⟨e, by simpa using he, ?_⟩
    simpa [he] using h

/-- The result of `FindTextureSlot` in a state whose slot count is inside the array:
`-1` when no used slot carries the tag, else the least used slot that does. -/
theorem FindTextureSlot_cases (self : SceneManager R) (tag : String)
    (hle : self.m_loadedTextures ≤ self.m_textureIDs.length) :
    ((∀ i, i < self.m_loadedTextures → self.tagAt i ≠ some tag) ∧
        self.FindTextureSlot tag = .ok (-1)) ∨
    (∃ k : Nat, k < self.m_loadedTextures ∧ self.tagAt k = some tag ∧
        (∀ j, j < k → self.tagAt j ≠ some tag) ∧
        self.FindTextureSlot tag = .ok (k : Int)) := by
  by_cases hex : ∃ k, k < self.m_loadedTextures ∧ self.tagAt k = some tag
  · right
    classical
    refine ⟨Nat.find hex, (Nat.find_spec hex).1, (Nat.find_spec hex).2, ?_, ?_⟩
    · intro j hj hjt
      exact Nat.find_min hex hj ⟨lt_trans hj (Nat.find_spec hex).1, hjt⟩
    · have hfound := tagAt_eq self tag _ (Nat.find_spec hex).2
      have hbefore : ∀ j, j < Nat.find hex →
          ∃ e, self.m_textureIDs[0 + j]? = some e ∧ e.tag ≠ tag := by
        intro j hj
        apply tagAt_ne self tag j
        · exact lt_of_lt_of_le (lt_trans hj (Nat.find_spec hex).1) hle
        · intro hjt
          exact Nat.find_min hex hj ⟨lt_trans hj (Nat.find_spec hex).1, hjt⟩
      have := FindTextureSlot_loop_found self.m_textureIDs tag (Nat.find hex)
        self.m_loadedTextures 0 (Nat.find_spec hex).1 hfound hbefore
      simpa [FindTextureSlot] using this
  · left
    have hall : ∀ i, i < self.m_loadedTextures → self.tagAt i ≠ some tag := by
      intro i hi hit
      exact hex ⟨i, hi, hit⟩
    refine ⟨hall, ?_⟩
    apply FindTextureSlot_loop_absent
    intro j hj
    exact tagAt_ne self tag j (lt_of_lt_of_le hj hle) (hall j hj)

/-- What a successful `CreateGLTexture` does to the registry. -/
theorem CreateGLTexture_ok_true (drv : GLDriver) (stbi_load : String → Option IMAGE)
    (self self1 : SceneManager R) (gl gl1 : GLState) (filename tag : String)
    (h : CreateGLTexture drv stbi_load self gl filename tag = .ok (true, self1, gl1)) :
    self.m_loadedTextures < self.m_textureIDs.length ∧
    self1.m_textureIDs = self.m_textureIDs.set self.m_loadedTextures
      ⟨drv gl.generated % 2 ^ 32, tag⟩ ∧
    self1.m_loadedTextures = self.m_loadedTextures + 1 ∧
    self1.m_objectMaterials = self.m_objectMaterials ∧
    self1.m_pShaderManager = self.m_pShaderManager ∧
    gl1.generated = gl.generated ++ [drv gl.generated % 2 ^ 32] := by
  unfold CreateGLTexture at h
  cases himg : stbi_load filename with
  | none => simp [himg] at h
  | some image =>
    simp only [himg, glGenTextures] at h
    by_cases hch : image.colorChannels = 3 ∨ image.colorChannels = 4
    · rw [if_pos hch] at h
      by_cases hcap : self.m_loadedTextures < self.m_textureIDs.length
      · rw [if_pos hcap] at h
        simp only [Except.ok.injEq, Prod.mk.injEq, true_and] at h
        obtain ⟨h1, h2⟩ := h
        subst h1
        subst h2
        simp [hcap, glBindTexture, glTexImage2D]
      · rw [if_neg hcap] at h
        cases h
    · rw [if_neg hch] at h
      simp at h

/-- A failed `CreateGLTexture` returns the registry it was given. -/
theorem CreateGLTexture_ok_false (drv : GLDriver) (stbi_load : String → Option IMAGE)
    (self self1 : SceneManager R) (gl gl1 : GLState) (filename tag : String)
    (h : CreateGLTexture drv stbi_load self gl filename tag = .ok (false, self1, gl1)) :
    self1 = self := by
  unfold CreateGLTexture at h
  cases himg : stbi_load filename with
  | none =>
    simp only [himg, Except.ok.injEq, Prod.mk.injEq, true_and] at h
    exact h.1.symm
  | some image =>
    simp only [himg, glGenTextures] at h
    by_cases hch : image.colorChannels = 3 ∨ image.colorChannels = 4
    · rw [if_pos hch] at h
      by_cases hcap : self.m_loadedTextures < self.m_textureIDs.length
      · rw [if_pos hcap] at h
        simp at h
      · rw [if_neg hcap] at h
        cases h
    · rw [if_neg hch] at h
      simp only [Except.ok.injEq, Prod.mk.injEq, true_and] at h
      exact h.1.symm

end SceneManager

/-! ## C2: first-match lookup -/

namespace SceneManager

variable {R : Type}

/-- C2: in a well-formed registry `FindTextureSlot` returns a result; the result is `-1`
exactly when no used slot carries the tag; when some used slot carries it, the result is
the least such slot; and a further `CreateGLTexture` call with a tag that is already
registered leaves the slot that tag resolves to unchanged. -/
theorem FindTextureSlot_first_match (self : SceneManager R) (hwf : self.WellFormed)
    (tag : String) :
    (∃ r : Int, self.FindTextureSlot tag = .ok r ∧
      (r = -1 ↔ ∀ i, i < self.m_loadedTextures → self.tagAt i ≠ some tag) ∧
      ((∃ i, i < self.m_loadedTextures ∧ self.tagAt i = some tag) →
        ∃ k : Nat, r = (k : Int) ∧ k < self.m_loadedTextures ∧ self.tagAt k = some tag ∧
          ∀ j, j < k → self.tagAt j ≠ some tag)) ∧
    (∀ (drv : GLDriver) (stbi_load : String → Option IMAGE) (gl gl1 : GLState)
        (filename : String) (b : Bool) (self1 : SceneManager R),
      (∃ i, i < self.m_loadedTextures ∧ self.tagAt i = some tag) →
      CreateGLTexture drv stbi_load self gl filename tag = .ok (b, self1, gl1) →
      self1.FindTextureSlot tag = self.FindTextureSlot tag) := by
  have hle : self.m_loadedTextures ≤ self.m_textureIDs.length := by
    rw [hwf.1]; exact hwf.2
  constructor
  · rcases FindTextureSlot_cases self tag hle with ⟨hall, hres⟩ | ⟨k, hk, hkt, hmin, hres⟩
    · refine ⟨-1, hres, ⟨fun _ => hall, fun _ => rfl⟩, ?_⟩
      rintro ⟨i, hi, hit⟩
      exact absurd hit (hall i hi)
    · refine ⟨(k : Int), hres, ⟨?_, ?_⟩, fun _ => ⟨k, rfl, hk, hkt, hmin⟩⟩
      · intro hneg
        omega
      · intro hall
        exact absurd hkt (hall k hk)
  · intro drv stbi_load gl gl1 filename b self1 hreg hcall
    cases b with
    | false => rw [CreateGLTexture_ok_false drv stbi_load self self1 gl gl1 filename tag hcall]
    | true =>
      obtain ⟨hcap, hids, hcnt, -, -, -⟩ :=
        CreateGLTexture_ok_true drv stbi_load self self1 gl gl1 filename tag hcall
      rcases FindTextureSlot_cases self tag hle with ⟨hall, -⟩ | ⟨k, hk, hkt, hmin, hres⟩
      · obtain ⟨i, hi, hit⟩ := hreg
        exact absurd hit (hall i hi)
      · rw [hres]
        have hsame : ∀ j, j < self.m_loadedTextures →
            self1.m_textureIDs[0 + j]? = self.m_textureIDs[0 + j]? := by
          intro j hj
          rw [hids, Nat.zero_add, List.getElem?_set_ne (by omega)]
        have hfound : ∃ e, self1.m_textureIDs[0 + k]? = some e ∧ e.tag = tag := by
          rw [hsame k hk]
          exact tagAt_eq self tag k hkt
        have hbefore : ∀ j, j < k →
            ∃ e, self1.m_textureIDs[0 + j]? = some e ∧ e.tag ≠ tag := by
          intro j hj
          rw [hsame j (lt_trans hj hk)]
          exact tagAt_ne self tag j (by omega) (hmin j hj)
        have := FindTextureSlot_loop_found self1.m_textureIDs tag k
          self1.m_loadedTextures 0 (by omega) hfound hbefore
        simpa [FindTextureSlot] using this

theorem registryAB_wellFormed : registryAB.WellFormed := by
  constructor
  · rfl
  · decide

/-- Witness for C2: the registry holding `a`, `b` and the tag `b`. -/
theorem FindTextureSlot_first_match_witness :
    registryAB.WellFormed ∧
    ((∃ r : Int, registryAB.FindTextureSlot "b" = .ok r ∧
      (r = -1 ↔ ∀ i, i < registryAB.m_loadedTextures → registryAB.tagAt i ≠ some "b") ∧
      ((∃ i, i < registryAB.m_loadedTextures ∧ registryAB.tagAt i = some "b") →
        ∃ k : Nat, r = (k : Int) ∧ k < registryAB.m_loadedTextures ∧
          registryAB.tagAt k = some "b" ∧ ∀ j, j < k → registryAB.tagAt j ≠ some "b")) ∧
    (∀ (drv : GLDriver) (stbi_load : String → Option IMAGE) (gl gl1 : GLState)
        (filename : String) (b : Bool) (self1 : SceneManager ℚ),
      (∃ i, i < registryAB.m_loadedTextures ∧ registryAB.tagAt i = some "b") →
      CreateGLTexture drv stbi_load registryAB gl filename "b" = .ok (b, self1, gl1) →
      self1.FindTextureSlot "b" = registryAB.FindTextureSlot "b")) :=
  ⟨registryAB_wellFormed, FindTextureSlot_first_match registryAB registryAB_wellFormed "b"⟩

end SceneManager

/-! ## C1: registration order is slot order -/

namespace SceneManager

variable {R : Type}

/-- With a decodable 3- or 4-channel image and a free slot, `CreateGLTexture` returns
true and some new state. -/
theorem CreateGLTexture_succeeds (drv : GLDriver) (stbi_load : String → Option IMAGE)
    (self : SceneManager R) (gl : GLState) (filename tag : String) (image : IMAGE)
    (himg : stbi_load filename = some image)
    (hch : image.colorChannels = 3 ∨ image.colorChannels = 4)
    (hcap : self.m_loadedTextures < self.m_textureIDs.length) :
    ∃ self1 gl1, CreateGLTexture drv stbi_load self gl filename tag = .ok (true, self1, gl1) := by
  unfold CreateGLTexture
  simp only [himg, glGenTextures]
  rw [if_pos hch, if_pos hcap]
  exact ⟨_, _, rfl⟩

/-- The state after a run of successful registrations: the count grows by the number
of requests, the slots used before are untouched, and the new slots hold, in order, the
generated handles with the requested tags. -/
theorem CreateGLTextures_invariant (drv : GLDriver) (stbi_load : String → Option IMAGE) :
    ∀ (reqs : List (String × String)) (self : SceneManager R) (gl : GLState),
      self.m_loadedTextures + reqs.length ≤ self.m_textureIDs.length →
      (∀ q, q ∈ reqs → ∃ image, stbi_load q.1 = some image ∧
        (image.colorChannels = 3 ∨ image.colorChannels = 4)) →
      ∃ (self1 : SceneManager R) (gl1 : GLState) (hs : List GLuint),
        CreateGLTextures drv stbi_load reqs self gl =
          .ok (List.replicate reqs.length true, self1, gl1) ∧
        hs.length = reqs.length ∧
        gl1.generated = gl.generated ++ hs ∧
        (∀ h, h ∈ hs → h < 2 ^ 32) ∧
        self1.m_loadedTextures = self.m_loadedTextures + reqs.length ∧
        self1.m_textureIDs.length = self.m_textureIDs.length ∧
        (∀ j, j < self.m_loadedTextures → self1.m_textureIDs[j]? = self.m_textureIDs[j]?) ∧
        (∀ (i : Nat) (h : GLuint) (q : String × String), hs[i]? = some h → reqs[i]? = some q →
          self1.m_textureIDs[self.m_loadedTextures + i]? = some ⟨h, q.2⟩) := by
  intro reqs
  induction reqs with
  | nil =>
    intro self gl _ _
    exact ⟨self, gl, [], rfl, rfl, by simp, by simp, by simp, rfl, fun _ _ => rfl, by simp⟩
  | cons q rest ih =>
    intro self gl hcap himg
    obtain ⟨filename, tag⟩ := q
    simp only [List.length_cons] at hcap
    obtain ⟨image, hload, hch⟩ := himg (filename, tag) (List.mem_cons_self _ _)
    obtain ⟨s1, g1, hcall⟩ := CreateGLTexture_succeeds drv stbi_load self gl filename tag
      image hload hch (by omega)
    obtain ⟨-, hids, hcnt, -, -, hgen⟩ :=
      CreateGLTexture_ok_true drv stbi_load self s1 gl g1 filename tag hcall
    have hlen1 : s1.m_textureIDs.length = self.m_textureIDs.length := by
      rw [hids, List.length_set]
    obtain ⟨s2, g2, hs, hrun, hhs, hgen2, hrange, hcnt2, hlen2, hframe, hnew⟩ :=
      ih s1 g1 (by rw [hcnt, hlen1]; omega)
        (fun q hq => himg q (List.mem_cons_of_mem _ hq))
    refine ⟨s2, g2, (drv gl.generated % 2 ^ 32) :: hs, ?_, ?_, ?_, ?_, ?_, ?_, ?_, ?_⟩
    · simp only [CreateGLTextures, hcall, hrun, List.length_cons, List.replicate_succ]
    · simp [hhs]
    · rw [hgen2, hgen]; simp
    · intro h hh
      rcases List.mem_cons.1 hh with rfl | hh
      · exact Nat.mod_lt _ (by norm_num)
      · exact hrange h hh
    · rw [hcnt2, hcnt, List.length_cons]; omega
    · rw [hlen2, hlen1]
    · intro j hj
      rw [hframe j (by omega), hids, List.getElem?_set_ne (by omega)]
    · intro i h q hh hq
      cases i with
      | zero =>
        simp only [List.getElem?_cons_zero, Option.some.injEq] at hh hq
        subst hh
        subst hq
        rw [Nat.add_zero, hframe _ (by omega), hids, List.getElem?_set_self (by omega)]
      | succ i =>
        simp only [List.getElem?_cons_succ] at hh hq
        have := hnew i h q hh hq
        rw [hcnt] at this
        rw [show self.m_loadedTextures + (i + 1) = self.m_loadedTextures + 1 + i by omega]
        exact this

/-- A handle in the range of `GLuint` survives the conversion to `int` and back. -/
theorem int_to_GLuint_to_int (id : Nat) (hid : id < 2 ^ 32) :
    int_to_GLuint (GLuint_to_int id) = id := by
  have hid1 : id < 4294967296 := by simpa using hid
  unfold int_to_GLuint GLuint_to_int
  rw [Nat.mod_eq_of_lt hid]
  by_cases hlt : id < 2 ^ 31
  · rw [if_pos hlt]
    have h1 : ((id : Int) % 2 ^ 32) = id := by
      norm_num
      omega
    rw [h1]; simp
  · rw [if_neg hlt]
    have hlt1 : ¬ id < 2147483648 := by simpa using hlt
    have h1 : (((id : Int) - 2 ^ 32) % 2 ^ 32) = id := by
      norm_num
      omega
    rw [h1]; simp

end SceneManager

namespace SceneManager

variable {R : Type}

/-- C1: from an empty, well-formed registry, a run of at most 16 `CreateGLTexture`
calls whose images decode with 3 or 4 channels and whose tags are pairwise distinct
succeeds call by call (every call returns true); the run generates one handle per call,
and afterwards the tag of the i-th call resolves to slot `i` and to the handle the
i-th call generated (as the `int` that carries it, which converts back to the handle). -/
theorem CreateGLTexture_slots_in_order (drv : GLDriver) (stbi_load : String → Option IMAGE)
    (self : SceneManager R) (gl : GLState) (reqs : List (String × String))
    (hwf : self.WellFormed) (hempty : self.m_loadedTextures = 0)
    (hN : reqs.length ≤ 16)
    (himg : ∀ q, q ∈ reqs → ∃ image, stbi_load q.1 = some image ∧
      (image.colorChannels = 3 ∨ image.colorChannels = 4))
    (hdist : (reqs.map Prod.snd).Nodup) :
    ∃ (self1 : SceneManager R) (gl1 : GLState) (hs : List GLuint),
      CreateGLTextures drv stbi_load reqs self gl =
        .ok (List.replicate reqs.length true, self1, gl1) ∧
      hs.length = reqs.length ∧
      gl1.generated = gl.generated ++ hs ∧
      ∀ (i : Nat) (h : GLuint) (q : String × String), hs[i]? = some h → reqs[i]? = some q →
        self1.FindTextureSlot q.2 = .ok (i : Int) ∧
        self1.FindTextureID q.2 = .ok (GLuint_to_int h) ∧
        int_to_GLuint (GLuint_to_int h) = h := by
  have hcap : self.m_loadedTextures + reqs.length ≤ self.m_textureIDs.length := by
    rw [hempty, hwf.1]
    simpa [TEXTURE_CAPACITY] using hN
  obtain ⟨s1, g1, hs, hrun, hhs, hgen, hrange, hcnt, -, -, hnew⟩ :=
    CreateGLTextures_invariant drv stbi_load reqs self gl hcap himg
  refine ⟨s1, g1, hs, hrun, hhs, hgen, ?_⟩
  intro i h q hh hq
  have hi : i < reqs.length := by
    rcases Nat.lt_or_ge i reqs.length with hlt | hge
    · exact hlt
    · rw [List.getElem?_eq_none hge] at hq
      cases hq
  have hentry : s1.m_textureIDs[0 + i]? = some ⟨h, q.2⟩ := by
    have := hnew i h q hh hq
    rwa [hempty] at this
  have hbefore : ∀ j, j < i → ∃ e, s1.m_textureIDs[0 + j]? = some e ∧ e.tag ≠ q.2 := by
    intro j hj
    have hjr : j < reqs.length := lt_trans hj hi
    have hjh : j < hs.length := by rw [hhs]; exact hjr
    have hej := hnew j hs[j] reqs[j] (List.getElem?_eq_getElem hjh)
      (List.getElem?_eq_getElem hjr)
    rw [hempty] at hej
    refine ⟨_, hej, ?_⟩
    intro htag
    have hjm : j < (reqs.map Prod.snd).length := by simpa using hjr
    have heq : (reqs.map Prod.snd)[j]? = (reqs.map Prod.snd)[i]? := by
      simp only [List.getElem?_map, List.getElem?_eq_getElem hjr, hq, Option.map_some']
      exact congrArg some htag
    have := List.getElem?_inj hjm hdist heq
    omega
  have hrem : i < s1.m_loadedTextures := by rw [hcnt]; omega
  refine ⟨?_, ?_, ?_⟩
  · have := FindTextureSlot_loop_found s1.m_textureIDs q.2 i s1.m_loadedTextures 0 hrem
      ⟨_, hentry, rfl⟩ hbefore
    simpa [FindTextureSlot] using this
  · exact FindTextureID_loop_found s1.m_textureIDs q.2 i s1.m_loadedTextures 0 _ hrem
      hentry rfl hbefore
  · exact int_to_GLuint_to_int h (hrange h (List.getElem?_mem hh))

end SceneManager

namespace SceneManager

theorem registryEmpty_wellFormed : registryEmpty.WellFormed := by
  constructor
  · rfl
  · decide

theorem requestsSample_decode : ∀ q, q ∈ requestsSample → ∃ image,
    diskSample q.1 = some image ∧ (image.colorChannels = 3 ∨ image.colorChannels = 4) := by
  intro q hq
  simp only [requestsSample, List.mem_cons, List.mem_singleton, List.not_mem_nil,
    or_false] at hq
  rcases hq with rfl | rfl
  · exact ⟨⟨64, 64, 3⟩, by decide, Or.inl rfl⟩
  · exact ⟨⟨64, 32, 4⟩, by decide, Or.inr rfl⟩

/-- Witness for C1: two registrations on the sample disk. -/
theorem CreateGLTexture_slots_in_order_witness :
    (registryEmpty.WellFormed ∧ registryEmpty.m_loadedTextures = 0 ∧
      requestsSample.length ≤ 16 ∧ (requestsSample.map Prod.snd).Nodup) ∧
    ∃ (self1 : SceneManager ℚ) (gl1 : GLState) (hs : List GLuint),
      CreateGLTextures drvSequential diskSample requestsSample registryEmpty glInitial =
        .ok (List.replicate requestsSample.length true, self1, gl1) ∧
      hs.length = requestsSample.length ∧
      gl1.generated = glInitial.generated ++ hs ∧
      ∀ (i : Nat) (h : GLuint) (q : String × String), hs[i]? = some h →
        requestsSample[i]? = some q →
        self1.FindTextureSlot q.2 = .ok (i : Int) ∧
        self1.FindTextureID q.2 = .ok (GLuint_to_int h) ∧
        int_to_GLuint (GLuint_to_int h) = h :=
  ⟨⟨registryEmpty_wellFormed, rfl, by decide, by decide⟩,
    CreateGLTexture_slots_in_order drvSequential diskSample registryEmpty glInitial
      requestsSample registryEmpty_wellFormed rfl (by decide) requestsSample_decode
      (by decide)⟩

end SceneManager

/-! ## C9, C10: the failure paths of `CreateGLTexture` -/

namespace SceneManager

variable {R : Type}

/-- C9: when the image does not decode, or decodes with a channel count other than 3 or
4, `CreateGLTexture` returns false and hands back the registry it was given: the slot
count and the texture array are the same, and so is every `FindTextureSlot` and
`FindTextureID` result. -/
theorem CreateGLTexture_failure_keeps_registry (drv : GLDriver)
    (stbi_load : String → Option IMAGE) (self : SceneManager R) (gl : GLState)
    (filename tag : String)
    (hfail : stbi_load filename = none ∨ ∃ image, stbi_load filename = some image ∧
      image.colorChannels ≠ 3 ∧ image.colorChannels ≠ 4) :
    ∃ (self1 : SceneManager R) (gl1 : GLState),
      CreateGLTexture drv stbi_load self gl filename tag = .ok (false, self1, gl1) ∧
      self1.m_loadedTextures = self.m_loadedTextures ∧
      self1.m_textureIDs = self.m_textureIDs ∧
      ∀ t : String, self1.FindTextureSlot t = self.FindTextureSlot t ∧
        self1.FindTextureID t = self.FindTextureID t := by
  rcases hfail with hnone | ⟨image, hsome, h3, h4⟩
  · refine ⟨self, gl, ?_, rfl, rfl, fun _ => ⟨rfl, rfl⟩⟩
    simp [CreateGLTexture, hnone]
  · refine ⟨self, glBindTexture (glGenTextures drv gl).2 (glGenTextures drv gl).1, ?_,
      rfl, rfl, fun _ => ⟨rfl, rfl⟩⟩
    have hch : ¬ (image.colorChannels = 3 ∨ image.colorChannels = 4) := by
      rintro (h | h)
      · exact h3 h
      · exact h4 h
    simp [CreateGLTexture, hsome, hch]

/-- Witness for C9: the 1-channel file of the sample disk, on the registry holding
`a` and `b`. -/
theorem CreateGLTexture_failure_keeps_registry_witness :
    (diskSample "mask.gray" = none ∨ ∃ image, diskSample "mask.gray" = some image ∧
      image.colorChannels ≠ 3 ∧ image.colorChannels ≠ 4) ∧
    ∃ (self1 : SceneManager ℚ) (gl1 : GLState),
      CreateGLTexture drvSequential diskSample registryAB glInitial "mask.gray" "mask" =
        .ok (false, self1, gl1) ∧
      self1.m_loadedTextures = registryAB.m_loadedTextures ∧
      self1.m_textureIDs = registryAB.m_textureIDs ∧
      ∀ t : String, self1.FindTextureSlot t = registryAB.FindTextureSlot t ∧
        self1.FindTextureID t = registryAB.FindTextureID t :=
  have hfail : diskSample "mask.gray" = none ∨ ∃ image, diskSample "mask.gray" = some image ∧
      image.colorChannels ≠ 3 ∧ image.colorChannels ≠ 4 :=
    Or.inr ⟨⟨16, 16, 1⟩, by decide, by decide, by decide⟩
  ⟨hfail, CreateGLTexture_failure_keeps_registry drvSequential diskSample registryAB
    glInitial "mask.gray" "mask" hfail⟩

/-- C10 (the code at the failing input): for the 1-channel file of the sample disk the
call returns false, yet one texture name has been generated (the driver's name 1) and
that name is left bound to `GL_TEXTURE_2D`, where 0 was bound before. -/
theorem CreateGLTexture_unsupported_channels_leaves_texture :
    ∃ (self1 : SceneManager ℚ) (gl1 : GLState),
      CreateGLTexture drvSequential diskSample registryEmpty glInitial "mask.gray" "mask" =
        .ok (false, self1, gl1) ∧
      glInitial.generated = [] ∧ gl1.generated = [1] ∧
      glInitial.current2D = 0 ∧ gl1.current2D = 1 :=
  ⟨registryEmpty, glBindTexture (glGenTextures drvSequential glInitial).2 1, rfl,
    rfl, rfl, rfl, rfl⟩

end SceneManager

/-! ## C5 to C8: material lookup -/

namespace SceneManager

variable {R : Type}

/-- The loop returns the caller's record when no material carries the tag. -/
theorem FindMaterial_loop_absent (tag : String) (material : OBJECT_MATERIAL R) :
    ∀ materials : List (OBJECT_MATERIAL R), (∀ m, m ∈ materials → m.tag ≠ tag) →
      FindMaterial.loop tag materials material = material := by
  intro materials
  induction materials with
  | nil => intro _; rfl
  | cons m rest ih =>
    intro h
    have hm : m.tag ≠ tag := h m (List.mem_cons_self _ _)
    simp only [FindMaterial.loop, if_neg hm]
    exact ih (fun m1 hm1 => h m1 (List.mem_cons_of_mem _ hm1))

/-- The loop copies the five fields of the first material that carries the tag. -/
theorem FindMaterial_loop_found (tag : String) (material : OBJECT_MATERIAL R) :
    ∀ materials : List (OBJECT_MATERIAL R), (∃ m, m ∈ materials ∧ m.tag = tag) →
      ∃ (k : Nat) (m : OBJECT_MATERIAL R), materials[k]? = some m ∧ m.tag = tag ∧
        (∀ (j : Nat) (m1 : OBJECT_MATERIAL R), j < k → materials[j]? = some m1 → m1.tag ≠ tag) ∧
        FindMaterial.loop tag materials material =
          { ambientColor := m.ambientColor
            ambientStrength := m.ambientStrength
            diffuseColor := m.diffuseColor
            specularColor := m.specularColor
            shininess := m.shininess
            tag := material.tag } := by
  intro materials
  induction materials with
  | nil =>
    rintro ⟨m, hm, -⟩
    cases hm
  | cons m0 rest ih =>
    intro hocc
    by_cases h0 : m0.tag = tag
    · refine ⟨0, m0, by simp, h0, ?_, ?_⟩
      · intro j m1 hj
        omega
      · simp only [FindMaterial.loop, if_pos h0]
    · have hrest : ∃ m, m ∈ rest ∧ m.tag = tag := by
        obtain ⟨m, hm, hmt⟩ := hocc
        rcases List.mem_cons.1 hm with rfl | hm
        · exact absurd hmt h0
        · exact ⟨m, hm, hmt⟩
      obtain ⟨k, m, hk, hmt, hmin, hloop⟩ := ih hrest
      refine ⟨k + 1, m, by simpa using hk, hmt, ?_, ?_⟩
      · intro j m1 hj hj1
        cases j with
        | zero =>
          simp only [List.getElem?_cons_zero, Option.some.injEq] at hj1
          subst hj1
          exact h0
        | succ j =>
          simp only [List.getElem?_cons_succ] at hj1
          exact hmin j m1 (by omega) hj1
      · simp only [FindMaterial.loop, if_neg h0]
        exact hloop

/-- C5: when the tag occurs in the material list, `FindMaterial` returns true and the
caller's record holds the ambient colour, ambient strength, diffuse colour, specular
colour and shininess of the first material in the list that carries the tag. -/
theorem FindMaterial_found (self : SceneManager R) (tag : String)
    (material : OBJECT_MATERIAL R)
    (hocc : ∃ m, m ∈ self.m_objectMaterials ∧ m.tag = tag) :
    ∃ (k : Nat) (m out : OBJECT_MATERIAL R),
      self.m_objectMaterials[k]? = some m ∧ m.tag = tag ∧
      (∀ (j : Nat) (m1 : OBJECT_MATERIAL R), j < k →
        self.m_objectMaterials[j]? = some m1 → m1.tag ≠ tag) ∧
      self.FindMaterial tag material = (true, out, self) ∧
      out.ambientColor = m.ambientColor ∧ out.ambientStrength = m.ambientStrength ∧
      out.diffuseColor = m.diffuseColor ∧ out.specularColor = m.specularColor ∧
      out.shininess = m.shininess := by
  obtain ⟨k, m, hk, hmt, hmin, hloop⟩ :=
    FindMaterial_loop_found tag material self.m_objectMaterials hocc
  have hne : self.m_objectMaterials.length ≠ 0 := by
    obtain ⟨m1, hm1, -⟩ := hocc
    exact Nat.ne_of_gt (List.length_pos_of_mem hm1)
  refine ⟨k, m, FindMaterial.loop tag self.m_objectMaterials material, hk, hmt, hmin, ?_,
    ?_, ?_, ?_, ?_, ?_⟩
  case refine_2 => rw [hloop]
  case refine_3 => rw [hloop]
  case refine_4 => rw [hloop]
  case refine_5 => rw [hloop]
  case refine_6 => rw [hloop]
  unfold FindMaterial
  rw [if_neg hne, hloop]

/-- Witness for C5: `wood` in the list metal, wood, wood. -/
theorem FindMaterial_found_witness :
    (∃ m, m ∈ sceneWoodMetal.m_objectMaterials ∧ m.tag = "wood") ∧
    ∃ (k : Nat) (m out : OBJECT_MATERIAL ℚ),
      sceneWoodMetal.m_objectMaterials[k]? = some m ∧ m.tag = "wood" ∧
      (∀ (j : Nat) (m1 : OBJECT_MATERIAL ℚ), j < k →
        sceneWoodMetal.m_objectMaterials[j]? = some m1 → m1.tag ≠ "wood") ∧
      sceneWoodMetal.FindMaterial "wood" staleRecord = (true, out, sceneWoodMetal) ∧
      out.ambientColor = m.ambientColor ∧ out.ambientStrength = m.ambientStrength ∧
      out.diffuseColor = m.diffuseColor ∧ out.specularColor = m.specularColor ∧
      out.shininess = m.shininess :=
  have hocc : ∃ m, m ∈ sceneWoodMetal.m_objectMaterials ∧ m.tag = "wood" :=
    ⟨woodMaterial, by simp [sceneWoodMetal], rfl⟩
  ⟨hocc, FindMaterial_found sceneWoodMetal "wood" staleRecord hocc⟩

/-- C6 (the code at the failing input): for the list metal, wood, wood and the tag
`glass`, which no material carries, `FindMaterial` returns true. -/
theorem FindMaterial_absent_returns_true :
    (∀ m, m ∈ sceneWoodMetal.m_objectMaterials → m.tag ≠ "glass") ∧
    (sceneWoodMetal.FindMaterial "glass" staleRecord).1 = true := by
  constructor
  · intro m hm
    simp only [sceneWoodMetal, List.mem_cons, List.mem_singleton, List.not_mem_nil,
      or_false] at hm
    rcases hm with rfl | rfl | rfl <;> decide
  · rfl

/-- C7: when no material carries the tag, `FindMaterial` writes no field of the caller's
record and returns the object state it was given, so the material list is the same
before and after the call. -/
theorem FindMaterial_absent_frame (self : SceneManager R) (tag : String)
    (material : OBJECT_MATERIAL R)
    (habs : ∀ m, m ∈ self.m_objectMaterials → m.tag ≠ tag) :
    (self.FindMaterial tag material).2.1 = material ∧
    (self.FindMaterial tag material).2.2 = self ∧
    (self.FindMaterial tag material).2.2.m_objectMaterials = self.m_objectMaterials := by
  unfold FindMaterial
  split_ifs with h
  · exact ⟨rfl, rfl, rfl⟩
  · exact ⟨FindMaterial_loop_absent tag material _ habs, rfl, rfl⟩

theorem sceneWoodMetal_no_glass :
    ∀ m, m ∈ sceneWoodMetal.m_objectMaterials → m.tag ≠ "glass" := by
  intro m hm
  simp only [sceneWoodMetal, List.mem_cons, List.mem_singleton, List.not_mem_nil,
    or_false] at hm
  rcases hm with rfl | rfl | rfl <;> decide

/-- Witness for C7: the tag `glass` in the list metal, wood, wood. -/
theorem FindMaterial_absent_frame_witness :
    (∀ m, m ∈ sceneWoodMetal.m_objectMaterials → m.tag ≠ "glass") ∧
    (sceneWoodMetal.FindMaterial "glass" staleRecord).2.1 = staleRecord ∧
    (sceneWoodMetal.FindMaterial "glass" staleRecord).2.2 = sceneWoodMetal ∧
    (sceneWoodMetal.FindMaterial "glass" staleRecord).2.2.m_objectMaterials =
      sceneWoodMetal.m_objectMaterials :=
  ⟨sceneWoodMetal_no_glass,
    FindMaterial_absent_frame sceneWoodMetal "glass" staleRecord sceneWoodMetal_no_glass⟩

end SceneManager

namespace SceneManager

/-- C8 (the code at the failing input): with the materials metal, wood, wood and the
tag `glass`, which no material carries, `SetShaderMaterial` pushes five uniforms, read
from the local record it never initialised; `material.shininess` was 16 before the call
and is the stale value afterwards. -/
theorem SetShaderMaterial_absent_pushes_stale :
    (∀ m, m ∈ sceneWoodMetal.m_objectMaterials → m.tag ≠ "glass") ∧
    ∃ (self1 : SceneManager ℚ) (sm0 sm1 : ShaderManager ℚ),
      sceneWoodMetal.m_pShaderManager = some sm0 ∧
      SetShaderMaterial staleRecord sceneWoodMetal "glass" = .ok self1 ∧
      self1.m_pShaderManager = some sm1 ∧
      sm1.length = sm0.length + 5 ∧
      sm0.uniform "material.shininess" = some (UniformValue.floatV 16) ∧
      sm1.uniform "material.shininess" = some (UniformValue.floatV (-11)) := by
  refine ⟨?_, ?_⟩
  · intro m hm
    simp only [sceneWoodMetal, List.mem_cons, List.mem_singleton, List.not_mem_nil,
      or_false] at hm
    rcases hm with rfl | rfl | rfl <;> decide
  · exact ⟨_, _, _, rfl, rfl, rfl, rfl, rfl, rfl⟩

end SceneManager

/-! ## C3, C4: the model matrix -/

section Transform

variable {R : Type} [CommRing R]

end Transform

section Transform

variable {R : Type} [CommRing R]

end Transform

/-- Writing a uniform makes it the current value of its name. -/
theorem ShaderManager.uniform_append_same {R : Type} (sm : ShaderManager R) (name : String)
    (v : UniformValue R) : ShaderManager.uniform (sm ++ [(name, v)]) name = some v := by
  simp [ShaderManager.uniform]

/-- Writing a uniform leaves the current value of every other name alone. -/
theorem ShaderManager.uniform_append_other {R : Type} (sm : ShaderManager R)
    (name other : String) (v : UniformValue R) (h : other ≠ name) :
    ShaderManager.uniform (sm ++ [(other, v)]) name = ShaderManager.uniform sm name := by
  simp [ShaderManager.uniform, List.find?_cons, h]

namespace SceneManager

variable {R : Type}

/-- After `SetShaderColor` on a scene manager with a shader, `bUseTexture` is 0. -/
theorem SetShaderColor_flag (self : SceneManager R) (sm : ShaderManager R) (r g b a : R)
    (hsm : self.m_pShaderManager = some sm) :
    (self.SetShaderColor r g b a).uniform g_UseTextureName = some (UniformValue.intV 0) := by
  simp only [SetShaderColor, hsm, SceneManager.uniform, ShaderManager.setIntValue,
    ShaderManager.setVec4Value]
  rw [ShaderManager.uniform_append_other _ _ _ _ (by decide)]
  exact ShaderManager.uniform_append_same _ _ _

/-- The registry part of the state is untouched by `SetShaderColor`. -/
theorem SetShaderColor_registry (self : SceneManager R) (r g b a : R) :
    (self.SetShaderColor r g b a).m_textureIDs = self.m_textureIDs ∧
    (self.SetShaderColor r g b a).m_loadedTextures = self.m_loadedTextures ∧
    (self.SetShaderColor r g b a).m_objectMaterials = self.m_objectMaterials ∧
    ((self.SetShaderColor r g b a).m_pShaderManager = none ↔ self.m_pShaderManager = none) := by
  unfold SetShaderColor
  cases h : self.m_pShaderManager <;> simp [h]

/-- In a well-formed registry `FindTextureSlot` returns a result. -/
theorem FindTextureSlot_total (self : SceneManager R) (hwf : self.WellFormed) (tag : String) :
    ∃ r : Int, self.FindTextureSlot tag = .ok r := by
  have hle : self.m_loadedTextures ≤ self.m_textureIDs.length := by
    rw [hwf.1]; exact hwf.2
  rcases FindTextureSlot_cases self tag hle with ⟨-, h⟩ | ⟨k, -, -, -, h⟩
  · exact ⟨_, h⟩
  · exact ⟨_, h⟩

/-- What `SetShaderTexture` does with a shader attached: two writes, the flag 1 and
the slot `FindTextureSlot` returned. -/
theorem SetShaderTexture_some (self : SceneManager R) (sm : ShaderManager R) (tag : String)
    (r : Int) (hsm : self.m_pShaderManager = some sm) (hr : self.FindTextureSlot tag = .ok r) :
    self.SetShaderTexture tag = .ok
      { self with
        m_pShaderManager := some (sm ++ [(g_UseTextureName, UniformValue.intV 1)] ++
          [(g_TextureValueName, UniformValue.sampler2DV r)]) } := by
  simp only [SetShaderTexture, hsm, hr, ShaderManager.setIntValue,
    ShaderManager.setSampler2DValue]

end SceneManager

namespace SceneManager

variable {R : Type}

/-- After `SetShaderTexture` on a well-formed scene manager with a shader, the call
returns and `bUseTexture` is 1. -/
theorem SetShaderTexture_flag (self : SceneManager R) (sm : ShaderManager R) (tag : String)
    (hwf : self.WellFormed) (hsm : self.m_pShaderManager = some sm) :
    ∃ self1 : SceneManager R, self.SetShaderTexture tag = .ok self1 ∧
      self1.uniform g_UseTextureName = some (UniformValue.intV 1) ∧
      self1.m_textureIDs = self.m_textureIDs ∧
      self1.m_loadedTextures = self.m_loadedTextures ∧
      self1.m_objectMaterials = self.m_objectMaterials ∧
      ∃ sm1, self1.m_pShaderManager = some sm1 := by
  obtain ⟨r, hr⟩ := FindTextureSlot_total self hwf tag
  refine ⟨_, SetShaderTexture_some self sm tag r hsm hr, ?_, rfl, rfl, rfl, _, rfl⟩
  simp only [SceneManager.uniform]
  rw [ShaderManager.uniform_append_other _ _ _ _ (by decide)]
  exact ShaderManager.uniform_append_same _ _ _

/-- C11: with a shader manager attached (and a well-formed registry), for every colour
and every tag: `SetShaderColor` followed by `SetShaderTexture` leaves `bUseTexture` at 1
(true); `SetShaderTexture` followed by `SetShaderColor` leaves it at 0 (false); and from
whatever state it starts, a single `SetShaderTexture` leaves 1 and a single
`SetShaderColor` leaves 0, so the last of the two calls alone decides the flag. -/
theorem color_texture_mutually_exclusive (self : SceneManager R) (sm : ShaderManager R)
    (hwf : self.WellFormed) (hsm : self.m_pShaderManager = some sm)
    (r g b a : R) (tag : String) :
    (∃ s2 : SceneManager R, (self.SetShaderColor r g b a).SetShaderTexture tag = .ok s2 ∧
      s2.uniform g_UseTextureName = some (UniformValue.intV 1)) ∧
    (∃ s1 : SceneManager R, self.SetShaderTexture tag = .ok s1 ∧
      (s1.SetShaderColor r g b a).uniform g_UseTextureName = some (UniformValue.intV 0)) ∧
    (∃ s1 : SceneManager R, self.SetShaderTexture tag = .ok s1 ∧
      s1.uniform g_UseTextureName = some (UniformValue.intV 1)) ∧
    (self.SetShaderColor r g b a).uniform g_UseTextureName = some (UniformValue.intV 0) := by
  have hcolor := SetShaderColor_registry self r g b a
  have hwf1 : (self.SetShaderColor r g b a).WellFormed := by
    unfold WellFormed
    rw [hcolor.1, hcolor.2.1]
    exact hwf
  have hsm1 : ∃ smc, (self.SetShaderColor r g b a).m_pShaderManager = some smc := by
    cases h : (self.SetShaderColor r g b a).m_pShaderManager with
    | none => rw [hcolor.2.2.2.1 h] at hsm; cases hsm
    | some smc => exact ⟨smc, rfl⟩
  obtain ⟨smc, hsmc⟩ := hsm1
  obtain ⟨s2, hs2, hflag2, -⟩ := SetShaderTexture_flag (self.SetShaderColor r g b a) smc tag
    hwf1 hsmc
  obtain ⟨s1, hs1, hflag1, -, -, -, smt, hsmt⟩ := SetShaderTexture_flag self sm tag hwf hsm
  exact ⟨⟨s2, hs2, hflag2⟩, ⟨s1, hs1, SetShaderColor_flag s1 smt r g b a hsmt⟩,
    ⟨s1, hs1, hflag1⟩, SetShaderColor_flag self sm r g b a hsm⟩

end SceneManager

namespace SceneManager

theorem sceneWoodMetal_wellFormed : sceneWoodMetal.WellFormed := by
  constructor
  · rfl
  · decide

/-- Witness for C11: the scene with the wood uniforms pushed, the colour of the picture
frame and the tag `woodDesk`. -/
theorem color_texture_mutually_exclusive_witness :
    (sceneWoodMetal.WellFormed ∧ sceneWoodMetal.m_pShaderManager = some woodUniforms) ∧
    (∃ s2 : SceneManager ℚ,
      (sceneWoodMetal.SetShaderColor 0.2 0.15 0.1 1).SetShaderTexture "woodDesk" = .ok s2 ∧
      s2.uniform g_UseTextureName = some (UniformValue.intV 1)) ∧
    (∃ s1 : SceneManager ℚ, sceneWoodMetal.SetShaderTexture "woodDesk" = .ok s1 ∧
      (s1.SetShaderColor 0.2 0.15 0.1 1).uniform g_UseTextureName =
        some (UniformValue.intV 0)) ∧
    (∃ s1 : SceneManager ℚ, sceneWoodMetal.SetShaderTexture "woodDesk" = .ok s1 ∧
      s1.uniform g_UseTextureName = some (UniformValue.intV 1)) ∧
    (sceneWoodMetal.SetShaderColor 0.2 0.15 0.1 1).uniform g_UseTextureName =
      some (UniformValue.intV 0) :=
  ⟨⟨sceneWoodMetal_wellFormed, rfl⟩,
    color_texture_mutually_exclusive sceneWoodMetal woodUniforms sceneWoodMetal_wellFormed rfl
      0.2 0.15 0.1 1 "woodDesk"⟩

/-! ## C12: the five materials -/

/-- C12: `DefineObjectMaterials` on the empty list yields exactly the five materials
tagged wood, plastic, ceramic, metal, plant in that order, with pairwise distinct tags,
and on any scene manager whose material list is that result `FindMaterial` returns true
for each tag and delivers the shininess 16, 85, 64, 128 and 16 respectively. -/
theorem DefineObjectMaterials_five :
    (DefineObjectMaterials []).length = 5 ∧
    (DefineObjectMaterials []).map (fun m => m.tag) =
      ["wood", "plastic", "ceramic", "metal", "plant"] ∧
    ((DefineObjectMaterials []).map (fun m => m.tag)).Nodup ∧
    ∀ (self : SceneManager ℚ) (material : OBJECT_MATERIAL ℚ),
      (({ self with m_objectMaterials := DefineObjectMaterials [] }.FindMaterial
          "wood" material).1 = true ∧
        ({ self with m_objectMaterials := DefineObjectMaterials [] }.FindMaterial
          "wood" material).2.1.shininess = 16) ∧
      (({ self with m_objectMaterials := DefineObjectMaterials [] }.FindMaterial
          "plastic" material).1 = true ∧
        ({ self with m_objectMaterials := DefineObjectMaterials [] }.FindMaterial
          "plastic" material).2.1.shininess = 85) ∧
      (({ self with m_objectMaterials := DefineObjectMaterials [] }.FindMaterial
          "ceramic" material).1 = true ∧
        ({ self with m_objectMaterials := DefineObjectMaterials [] }.FindMaterial
          "ceramic" material).2.1.shininess = 64) ∧
      (({ self with m_objectMaterials := DefineObjectMaterials [] }.FindMaterial
          "metal" material).1 = true ∧
        ({ self with m_objectMaterials := DefineObjectMaterials [] }.FindMaterial
          "metal" material).2.1.shininess = 128) ∧
      (({ self with m_objectMaterials := DefineObjectMaterials [] }.FindMaterial
          "plant" material).1 = true ∧
        ({ self with m_objectMaterials := DefineObjectMaterials [] }.FindMaterial
          "plant" material).2.1.shininess = 16) := by
  refine ⟨rfl, rfl, by decide, ?_⟩
  intro self material
  simp [FindMaterial, DefineObjectMaterials, FindMaterial.loop, woodMaterial,
    plasticMaterial, ceramicMaterial, metalMaterial, plantMaterial]

end SceneManager

/-! ## C13: texture units follow slots -/

namespace SceneManager

variable {R : Type}

/-- The binding loop on slots `i .. i + remaining - 1`: it returns, binds each of these
units to the handle of its slot, and leaves every other unit and the generated names
alone. -/
theorem BindGLTextures_loop_spec (ids : List TEXTURE_INFO) :
    ∀ (remaining i : Nat) (gl : GLState), i + remaining ≤ ids.length →
      ∃ gl1 : GLState, BindGLTextures.loop ids remaining i gl = .ok gl1 ∧
        (∀ (u : Nat) (e : TEXTURE_INFO), i ≤ u → u < i + remaining → ids[u]? = some e →
          gl1.boundTexture2D u = e.ID) ∧
        (∀ u : Nat, (u < i ∨ i + remaining ≤ u) →
          gl1.boundTexture2D u = gl.boundTexture2D u) ∧
        gl1.generated = gl.generated := by
  intro remaining
  induction remaining with
  | zero =>
    intro i gl _
    refine ⟨gl, rfl, ?_, fun _ _ => rfl, rfl⟩
    intro u e h1 h2
    omega
  | succ n ih =>
    intro i gl hlen
    obtain ⟨e, he⟩ := entry_exists ids i (by omega)
    obtain ⟨gl1, hrun, hbound, hframe, hgen⟩ :=
      ih (i + 1) (glBindTexture (glActiveTexture gl i) e.ID) (by omega)
    refine ⟨gl1, ?_, ?_, ?_, ?_⟩
    · simp only [BindGLTextures.loop, he]
      exact hrun
    · intro u e1 h1 h2 hu
      rcases Nat.eq_or_lt_of_le h1 with heq | hlt
      · subst heq
        rw [he] at hu
        cases hu
        rw [hframe i (Or.inl (Nat.lt_succ_self i))]
        simp [glBindTexture, glActiveTexture]
      · exact hbound u e1 hlt (by omega) hu
    · intro u hu
      have hne : u ≠ i := by omega
      rw [hframe u (by omega)]
      simp [glBindTexture, glActiveTexture, hne]
    · rw [hgen]
      rfl

/-- C13: on a well-formed registry holding N textures `BindGLTextures` returns; after it
every unit `i < N` is bound to the handle stored in slot `i`, and every unit `≥ N` has
the binding it had before.  Hence for every registered tag `t` the slot `k` that
`FindTextureSlot t` returns, and that `SetShaderTexture t` writes to the sampler
uniform, is a unit whose bound texture is the handle `FindTextureID t` returns. -/
theorem BindGLTextures_units_follow_slots (self : SceneManager R) (gl : GLState)
    (hwf : self.WellFormed) :
    ∃ gl1 : GLState, self.BindGLTextures gl = .ok gl1 ∧
      (∀ i, i < self.m_loadedTextures → self.idAt i = some (gl1.boundTexture2D i)) ∧
      (∀ u, self.m_loadedTextures ≤ u → gl1.boundTexture2D u = gl.boundTexture2D u) ∧
      (∀ t : String, (∃ i, i < self.m_loadedTextures ∧ self.tagAt i = some t) →
        ∃ k : Nat, k < self.m_loadedTextures ∧
          self.FindTextureSlot t = .ok (k : Int) ∧
          self.FindTextureID t = .ok (GLuint_to_int (gl1.boundTexture2D k)) ∧
          ∀ sm : ShaderManager R, self.m_pShaderManager = some sm →
            ∃ self1 : SceneManager R, self.SetShaderTexture t = .ok self1 ∧
              self1.uniform g_TextureValueName = some (UniformValue.sampler2DV (k : Int))) := by
  have hle : self.m_loadedTextures ≤ self.m_textureIDs.length := by
    rw [hwf.1]; exact hwf.2
  obtain ⟨gl1, hrun, hbound, hframe, -⟩ :=
    BindGLTextures_loop_spec self.m_textureIDs self.m_loadedTextures 0 gl (by omega)
  refine ⟨gl1, hrun, ?_, ?_, ?_⟩
  · intro i hi
    obtain ⟨e, he⟩ := entry_exists self.m_textureIDs i (by omega)
    rw [idAt, he, hbound i e (Nat.zero_le _) (by omega) he]
    rfl
  · intro u hu
    exact hframe u (Or.inr (by omega))
  · intro t hreg
    rcases FindTextureSlot_cases self t hle with ⟨hall, -⟩ | ⟨k, hk, hkt, hmin, hres⟩
    · obtain ⟨i, hi, hit⟩ := hreg
      exact absurd hit (hall i hi)
    · obtain ⟨e, he, hetag⟩ := tagAt_eq self t k hkt
      have hbefore : ∀ j, j < k →
          ∃ e, self.m_textureIDs[0 + j]? = some e ∧ e.tag ≠ t := by
        intro j hj
        exact tagAt_ne self t j (by omega) (hmin j hj)
      have hid := FindTextureID_loop_found self.m_textureIDs t k self.m_loadedTextures 0 e
        hk he hetag hbefore
      have hek : self.m_textureIDs[k]? = some e := by simpa using he
      refine ⟨k, hk, hres, ?_, ?_⟩
      · rw [hbound k e (Nat.zero_le _) (by omega) hek]
        exact hid
      · intro sm hsm
        refine ⟨_, SetShaderTexture_some self sm t k hsm hres, ?_⟩
        simp only [SceneManager.uniform]
        exact ShaderManager.uniform_append_same _ _ _

theorem sceneAB_wellFormed : sceneAB.WellFormed := by
  constructor
  · rfl
  · decide

/-- Witness for C13: the registry holding `a` and `b`, with a shader attached. -/
theorem BindGLTextures_units_follow_slots_witness :
    sceneAB.WellFormed ∧
    ∃ gl1 : GLState, sceneAB.BindGLTextures glInitial = .ok gl1 ∧
      (∀ i, i < sceneAB.m_loadedTextures →
        sceneAB.idAt i = some (gl1.boundTexture2D i)) ∧
      (∀ u, sceneAB.m_loadedTextures ≤ u →
        gl1.boundTexture2D u = glInitial.boundTexture2D u) ∧
      (∀ t : String, (∃ i, i < sceneAB.m_loadedTextures ∧ sceneAB.tagAt i = some t) →
        ∃ k : Nat, k < sceneAB.m_loadedTextures ∧
          sceneAB.FindTextureSlot t = .ok (k : Int) ∧
          sceneAB.FindTextureID t = .ok (GLuint_to_int (gl1.boundTexture2D k)) ∧
          ∀ sm : ShaderManager ℚ, sceneAB.m_pShaderManager = some sm →
            ∃ self1 : SceneManager ℚ, sceneAB.SetShaderTexture t = .ok self1 ∧
              self1.uniform g_TextureValueName = some (UniformValue.sampler2DV (k : Int))) :=
  ⟨sceneAB_wellFormed,
    BindGLTextures_units_follow_slots sceneAB glInitial sceneAB_wellFormed⟩

end SceneManager

/-! ## C14: an unregistered texture tag -/

namespace SceneManager

variable {R : Type}

/-- C14, as the code has it: in a well-formed registry, for a tag no used slot carries,
`SetShaderTexture` returns without a fault and hands nothing back but the new state:
with the shader pointer NULL the state is unchanged, and with a shader attached the
call writes `bUseTexture` = 1 and then the sentinel -1 to the `objectTexture` sampler;
the registry and the materials are as before. -/
theorem SetShaderTexture_unregistered (self : SceneManager R) (tag : String)
    (hwf : self.WellFormed)
    (habs : ∀ i, i < self.m_loadedTextures → self.tagAt i ≠ some tag) :
    (self.m_pShaderManager = none → self.SetShaderTexture tag = .ok self) ∧
    (∀ sm : ShaderManager R, self.m_pShaderManager = some sm →
      self.SetShaderTexture tag = .ok
        { self with
          m_pShaderManager := some (sm ++ [(g_UseTextureName, UniformValue.intV 1)] ++
            [(g_TextureValueName, UniformValue.sampler2DV (-1))]) }) := by
  have hle : self.m_loadedTextures ≤ self.m_textureIDs.length := by
    rw [hwf.1]; exact hwf.2
  have hres : self.FindTextureSlot tag = .ok (-1) := by
    rcases FindTextureSlot_cases self tag hle with ⟨-, h⟩ | ⟨k, hk, hkt, -, -⟩
    · exact h
    · exact absurd hkt (habs k hk)
  constructor
  · intro hnone
    simp only [SetShaderTexture, hnone]
  · intro sm hsm
    exact SetShaderTexture_some self sm tag (-1) hsm hres

theorem sceneAB_no_missing :
    ∀ i, i < sceneAB.m_loadedTextures → sceneAB.tagAt i ≠ some "missing" := by
  intro i hi
  have h2 : i < 2 := hi
  interval_cases i <;> decide

/-- Witness for C14, as the code has it: the tag `missing` on the registry holding `a`
and `b`. -/
theorem SetShaderTexture_unregistered_witness :
    (sceneAB.WellFormed ∧
      ∀ i, i < sceneAB.m_loadedTextures → sceneAB.tagAt i ≠ some "missing") ∧
    (sceneAB.m_pShaderManager = none → sceneAB.SetShaderTexture "missing" = .ok sceneAB) ∧
    (∀ sm : ShaderManager ℚ, sceneAB.m_pShaderManager = some sm →
      sceneAB.SetShaderTexture "missing" = .ok
        { sceneAB with
          m_pShaderManager := some (sm ++ [(g_UseTextureName, UniformValue.intV 1)] ++
            [(g_TextureValueName, UniformValue.sampler2DV (-1))]) }) :=
  ⟨⟨sceneAB_wellFormed, sceneAB_no_missing⟩,
    SetShaderTexture_unregistered sceneAB "missing" sceneAB_wellFormed sceneAB_no_missing⟩

/-- Counterexample to C14 as stated: on the registry holding `a` and `b`, with a shader
attached, the tag `missing` is carried by no used slot, yet `SetShaderTexture` returns
an ordinary new state in which a value, -1, has been written to the `objectTexture`
sampler uniform. -/
theorem SetShaderTexture_unregistered_pushes_sentinel :
    (∀ i, i < sceneAB.m_loadedTextures → sceneAB.tagAt i ≠ some "missing") ∧
    ∃ self1 : SceneManager ℚ, sceneAB.SetShaderTexture "missing" = .ok self1 ∧
      sceneAB.uniform g_TextureValueName = none ∧
      self1.uniform g_TextureValueName = some (UniformValue.sampler2DV (-1)) ∧
      self1.m_pShaderManager = some [(g_UseTextureName, UniformValue.intV 1),
        (g_TextureValueName, UniformValue.sampler2DV (-1))] := by
  refine ⟨?_, _, rfl, rfl, rfl, rfl⟩
  intro i hi
  have h2 : i < 2 := hi
  interval_cases i <;> decide

/-! ## C19: the NULL shader pointer -/

end SceneManager

/-! ## C17: the capacity of the texture array -/

namespace SceneManager

variable {R : Type}

/-- C17: for a well-formed registry and a file that decodes with 3 or 4 channels,
`CreateGLTexture` tests no capacity.  With fewer than 16 slots used, and only then, the
call returns true, having written the new entry at index `m_loadedTextures` inside the
array and left the count at most 16; with all 16 slots used the write goes to index 16,
outside the array.  In no case does the call return false. -/
theorem CreateGLTexture_no_capacity_guard (drv : GLDriver)
    (stbi_load : String → Option IMAGE) (self : SceneManager R) (gl : GLState)
    (filename tag : String) (image : IMAGE) (hwf : self.WellFormed)
    (himg : stbi_load filename = some image)
    (hch : image.colorChannels = 3 ∨ image.colorChannels = 4) :
    (self.m_loadedTextures < 16 ↔
      ∃ (self1 : SceneManager R) (gl1 : GLState),
        CreateGLTexture drv stbi_load self gl filename tag = .ok (true, self1, gl1) ∧
        self1.m_textureIDs[self.m_loadedTextures]? =
          some ⟨drv gl.generated % 2 ^ 32, tag⟩ ∧
        self.m_loadedTextures < self.m_textureIDs.length ∧
        self1.m_loadedTextures = self.m_loadedTextures + 1 ∧
        self1.WellFormed) ∧
    (self.m_loadedTextures = 16 →
      self.m_textureIDs.length = 16 ∧
      CreateGLTexture drv stbi_load self gl filename tag = .error Fault.outOfBounds) ∧
    (∀ (self1 : SceneManager R) (gl1 : GLState),
      CreateGLTexture drv stbi_load self gl filename tag ≠ .ok (false, self1, gl1)) := by
  have hlen : self.m_textureIDs.length = 16 := hwf.1
  refine ⟨⟨?_, ?_⟩, ?_, ?_⟩
  · intro hlt
    obtain ⟨s1, g1, hcall⟩ := CreateGLTexture_succeeds drv stbi_load self gl filename tag
      image himg hch (by omega)
    obtain ⟨hcap, hids, hcnt, -, -, -⟩ :=
      CreateGLTexture_ok_true drv stbi_load self s1 gl g1 filename tag hcall
    refine ⟨s1, g1, hcall, ?_, hcap, hcnt, ?_, ?_⟩
    · rw [hids, List.getElem?_set_self hcap]
    · show s1.m_textureIDs.length = TEXTURE_CAPACITY
      rw [hids, List.length_set]
      exact hwf.1
    · show s1.m_loadedTextures ≤ TEXTURE_CAPACITY
      rw [hcnt]
      show self.m_loadedTextures + 1 ≤ 16
      omega
  · rintro ⟨s1, g1, hcall, -, hcap, -, -⟩
    omega
  · intro hfull
    refine ⟨hlen, ?_⟩
    have hcap : ¬ self.m_loadedTextures < self.m_textureIDs.length := by omega
    simp only [CreateGLTexture, himg, glGenTextures]
    rw [if_pos hch, if_neg hcap]
  · intro s1 g1 hcall
    simp only [CreateGLTexture, himg, glGenTextures] at hcall
    rw [if_pos hch] at hcall
    split_ifs at hcall
    · simp at hcall

theorem registryFull_wellFormed : registryFull.WellFormed := by
  constructor
  · rfl
  · decide

/-- Witness for C17: the full registry and the 3-channel file of the sample disk. -/
theorem CreateGLTexture_no_capacity_guard_witness :
    (registryFull.WellFormed ∧ diskSample "wood.jpg" = some ⟨64, 64, 3⟩) ∧
    (registryFull.m_loadedTextures < 16 ↔
      ∃ (self1 : SceneManager ℚ) (gl1 : GLState),
        CreateGLTexture drvSequential diskSample registryFull glInitial "wood.jpg" "wood" =
          .ok (true, self1, gl1) ∧
        self1.m_textureIDs[registryFull.m_loadedTextures]? =
          some ⟨drvSequential glInitial.generated % 2 ^ 32, "wood"⟩ ∧
        registryFull.m_loadedTextures < registryFull.m_textureIDs.length ∧
        self1.m_loadedTextures = registryFull.m_loadedTextures + 1 ∧
        self1.WellFormed) ∧
    (registryFull.m_loadedTextures = 16 →
      registryFull.m_textureIDs.length = 16 ∧
      CreateGLTexture drvSequential diskSample registryFull glInitial "wood.jpg" "wood" =
        .error Fault.outOfBounds) ∧
    (∀ (self1 : SceneManager ℚ) (gl1 : GLState),
      CreateGLTexture drvSequential diskSample registryFull glInitial "wood.jpg" "wood" ≠
        .ok (false, self1, gl1)) :=
  ⟨⟨registryFull_wellFormed, rfl⟩,
    CreateGLTexture_no_capacity_guard drvSequential diskSample registryFull glInitial
      "wood.jpg" "wood" ⟨64, 64, 3⟩ registryFull_wellFormed rfl (Or.inl rfl)⟩

end SceneManager

/-! ## C18: texture teardown -/

namespace SceneManager

variable {R : Type}

/-- The slot lookup reads nothing of the array but the tags. -/
theorem FindTextureSlot_loop_congr (ids ids1 : List TEXTURE_INFO) (tag : String)
    (htags : ∀ u : Nat, (ids1[u]?).map (fun e => e.tag) = (ids[u]?).map (fun e => e.tag)) :
    ∀ (remaining index : Nat),
      FindTextureSlot.loop ids1 tag remaining index =
        FindTextureSlot.loop ids tag remaining index := by
  intro remaining
  induction remaining with
  | zero => intro index; rfl
  | succ n ih =>
    intro index
    have h := htags index
    cases h1 : ids1[index]? with
    | none =>
      cases h0 : ids[index]? with
      | none => simp only [FindTextureSlot.loop, h1, h0]
      | some e0 => simp [h1, h0] at h
    | some e1 =>
      cases h0 : ids[index]? with
      | none => simp [h1, h0] at h
      | some e0 =>
        have htag : e1.tag = e0.tag := by simpa [h1, h0] using h
        simp only [FindTextureSlot.loop, h1, h0, htag, ih (index + 1)]

/-- Names handed out in a fresh run are not among the names generated before. -/
theorem FreshRun_head (drv : GLDriver) (n : Nat) (names : List GLuint)
    (h : FreshRun drv (n + 1) names) :
    drv names % 2 ^ 32 ∉ names ∧ FreshRun drv n (names ++ [drv names % 2 ^ 32]) := h

/-- The teardown loop on slots `i .. i + remaining - 1`: it returns; the array keeps its
length and every tag; slots outside the range are untouched; the slots of the range
hold, in order, the names generated by the loop; and these names were unused before. -/
theorem DestroyGLTextures_loop_spec (drv : GLDriver) :
    ∀ (remaining i : Nat) (ids : List TEXTURE_INFO) (gl : GLState),
      i + remaining ≤ ids.length → FreshRun drv remaining gl.generated →
      ∃ (ids1 : List TEXTURE_INFO) (gl1 : GLState) (hs : List GLuint),
        DestroyGLTextures.loop drv remaining i ids gl = .ok (ids1, gl1) ∧
        ids1.length = ids.length ∧
        hs.length = remaining ∧
        gl1.generated = gl.generated ++ hs ∧
        (∀ h, h ∈ hs → h ∉ gl.generated) ∧
        (∀ u : Nat, (ids1[u]?).map (fun e => e.tag) = (ids[u]?).map (fun e => e.tag)) ∧
        (∀ u : Nat, (u < i ∨ i + remaining ≤ u) → ids1[u]? = ids[u]?) ∧
        (∀ j : Nat, j < remaining → (ids1[i + j]?).map (fun e => e.ID) = hs[j]?) := by
  intro remaining
  induction remaining with
  | zero =>
    intro i ids gl _ _
    exact ⟨ids, gl, [], rfl, rfl, rfl, by simp, by simp, fun _ => rfl, fun _ _ => rfl,
      fun j hj => absurd hj (Nat.not_lt_zero j)⟩
  | succ n ih =>
    intro i ids gl hlen hfresh
    obtain ⟨hnew, hfresh1⟩ := FreshRun_head drv n gl.generated hfresh
    obtain ⟨e, he⟩ := entry_exists ids i (by omega)
    have hi : i < ids.length := by omega
    obtain ⟨ids1, gl1, hs, hrun, hlen1, hhs, hgen, hunused, htags, hframe, hnames⟩ :=
      ih (i + 1) (ids.set i { e with ID := drv gl.generated % 2 ^ 32 })
        (glGenTextures drv gl).2 (by rw [List.length_set]; omega) hfresh1
    refine ⟨ids1, gl1, (drv gl.generated % 2 ^ 32) :: hs, ?_, ?_, ?_, ?_, ?_, ?_, ?_, ?_⟩
    · simp only [DestroyGLTextures.loop, he, glGenTextures]
      exact hrun
    · rw [hlen1, List.length_set]
    · simp [hhs]
    · rw [hgen]
      simp [glGenTextures]
    · intro h hh
      rcases List.mem_cons.1 hh with rfl | hh
      · exact hnew
      · have := hunused h hh
        intro hmem
        apply this
        simp only [glGenTextures, List.mem_append]
        exact Or.inl hmem
    · intro u
      rw [htags u]
      by_cases hu : u = i
      · subst hu
        rw [List.getElem?_set_self hi, he]
        rfl
      · rw [List.getElem?_set_ne (fun h => hu h.symm)]
    · intro u hu
      rw [hframe u (by omega), List.getElem?_set_ne (by omega)]
    · intro j hj
      cases j with
      | zero =>
        rw [Nat.add_zero, hframe i (Or.inl (Nat.lt_succ_self i)), List.getElem?_set_self hi]
        simp
      | succ j =>
        rw [show i + (j + 1) = i + 1 + j by omega, hnames j (by omega)]
        simp

end SceneManager

namespace SceneManager

variable {R : Type}

/-- C18: `DestroyGLTextures` deletes nothing.  On a well-formed registry of N textures
whose handles are allocated in the context, with a driver that hands out unused names,
the call returns; the only GL effect is that N names are generated, so every name
allocated before is still allocated; the slot count and every tag are unchanged, hence
so is every `FindTextureSlot` result; each of the N used slots now holds the name
generated for it; and no original handle is held by any used slot any more. -/
theorem DestroyGLTextures_regenerates (drv : GLDriver) (self : SceneManager R) (gl : GLState)
    (hwf : self.WellFormed)
    (halloc : ∀ (i : Nat) (h : GLuint), i < self.m_loadedTextures → self.idAt i = some h →
      h ∈ gl.generated)
    (hfresh : FreshRun drv self.m_loadedTextures gl.generated) :
    ∃ (self1 : SceneManager R) (gl1 : GLState) (hs : List GLuint),
      DestroyGLTextures drv self gl = .ok (self1, gl1) ∧
      self1.m_loadedTextures = self.m_loadedTextures ∧
      (∀ u : Nat, self1.tagAt u = self.tagAt u) ∧
      (∀ t : String, self1.FindTextureSlot t = self.FindTextureSlot t) ∧
      hs.length = self.m_loadedTextures ∧
      gl1.generated = gl.generated ++ hs ∧
      (∀ h, h ∈ hs → h ∉ gl.generated) ∧
      (∀ i, i < self.m_loadedTextures → self1.idAt i = hs[i]?) ∧
      (∀ (i : Nat) (h : GLuint), i < self.m_loadedTextures → self.idAt i = some h →
        h ∈ gl1.generated ∧ ∀ j, j < self.m_loadedTextures → self1.idAt j ≠ some h) := by
  have hle : 0 + self.m_loadedTextures ≤ self.m_textureIDs.length := by
    rw [hwf.1, Nat.zero_add]; exact hwf.2
  obtain ⟨ids1, gl1, hs, hrun, -, hhs, hgen, hunused, htags, -, hnames⟩ :=
    DestroyGLTextures_loop_spec drv self.m_loadedTextures 0 self.m_textureIDs gl hle hfresh
  have hids : ∀ i, i < self.m_loadedTextures →
      (ids1[i]?).map (fun e => e.ID) = hs[i]? := by
    intro i hi
    have := hnames i hi
    rwa [Nat.zero_add] at this
  refine ⟨{ self with m_textureIDs := ids1 }, gl1, hs, ?_, rfl, htags, ?_, hhs, hgen,
    hunused, hids, ?_⟩
  · simp only [DestroyGLTextures, hrun]
  · intro t
    exact FindTextureSlot_loop_congr self.m_textureIDs ids1 t htags self.m_loadedTextures 0
  · intro i h hi hih
    refine ⟨?_, ?_⟩
    · rw [hgen]
      exact List.mem_append_left _ (halloc i h hi hih)
    · intro j hj hjh
      have hjs : hs[j]? = some h := by
        rw [← hids j hj]
        exact hjh
      exact hunused h (List.getElem?_mem hjs) (halloc i h hi hih)

theorem registryAB_allocated : ∀ (i : Nat) (h : GLuint), i < registryAB.m_loadedTextures →
    registryAB.idAt i = some h → h ∈ glTwoNames.generated := by
  intro i h hi hih
  have h2 : i < 2 := hi
  interval_cases i
  · have : h = 1 := by
      have h1 : registryAB.idAt 0 = some 1 := rfl
      rw [h1] at hih
      exact (Option.some.inj hih).symm
    subst this
    decide
  · have : h = 2 := by
      have h1 : registryAB.idAt 1 = some 2 := rfl
      rw [h1] at hih
      exact (Option.some.inj hih).symm
    subst this
    decide

theorem drvSequential_fresh : FreshRun drvSequential registryAB.m_loadedTextures
    glTwoNames.generated := by
  show FreshRun drvSequential 2 [1, 2]
  simp [FreshRun, drvSequential]

/-- Witness for C18: the registry holding the handles 1 and 2, in a context where these
two names are the ones generated, with the driver that counts upwards. -/
theorem DestroyGLTextures_regenerates_witness :
    (registryAB.WellFormed ∧ FreshRun drvSequential registryAB.m_loadedTextures
      glTwoNames.generated) ∧
    ∃ (self1 : SceneManager ℚ) (gl1 : GLState) (hs : List GLuint),
      DestroyGLTextures drvSequential registryAB glTwoNames = .ok (self1, gl1) ∧
      self1.m_loadedTextures = registryAB.m_loadedTextures ∧
      (∀ u : Nat, self1.tagAt u = registryAB.tagAt u) ∧
      (∀ t : String, self1.FindTextureSlot t = registryAB.FindTextureSlot t) ∧
      hs.length = registryAB.m_loadedTextures ∧
      gl1.generated = glTwoNames.generated ++ hs ∧
      (∀ h, h ∈ hs → h ∉ glTwoNames.generated) ∧
      (∀ i, i < registryAB.m_loadedTextures → self1.idAt i = hs[i]?) ∧
      (∀ (i : Nat) (h : GLuint), i < registryAB.m_loadedTextures →
        registryAB.idAt i = some h →
        h ∈ gl1.generated ∧ ∀ j, j < registryAB.m_loadedTextures → self1.idAt j ≠ some h) :=
  ⟨⟨registryAB_wellFormed, drvSequential_fresh⟩,
    DestroyGLTextures_regenerates drvSequential registryAB glTwoNames registryAB_wellFormed
      registryAB_allocated drvSequential_fresh⟩

end SceneManager

/-! ## C20: the determinant of the model matrix -/

section Determinant

variable {R : Type} [CommRing R]

end Determinant

section DeterminantField

variable {K : Type} [Field K]

end DeterminantField

set_option maxRecDepth 8000

namespace SceneManager

end SceneManager

/-! ## C16: the tags `RenderScene` uses are registered by `PrepareScene` -/

namespace SceneManager

variable {R : Type}

/-- A run of `CreateGLTexture` calls leaves the shader pointer and the materials alone. -/
theorem CreateGLTextures_frame (drv : GLDriver) (stbi_load : String → Option IMAGE) :
    ∀ (reqs : List (String × String)) (self self1 : SceneManager R) (gl gl1 : GLState)
      (bs : List Bool),
      CreateGLTextures drv stbi_load reqs self gl = .ok (bs, self1, gl1) →
      self1.m_objectMaterials = self.m_objectMaterials ∧
      self1.m_pShaderManager = self.m_pShaderManager := by
  intro reqs
  induction reqs with
  | nil =>
    intro self self1 gl gl1 bs h
    simp only [CreateGLTextures, Except.ok.injEq, Prod.mk.injEq] at h
    obtain ⟨-, h1, -⟩ := h
    subst h1
    exact ⟨rfl, rfl⟩
  | cons q rest ih =>
    intro self self1 gl gl1 bs h
    obtain ⟨filename, tag⟩ := q
    simp only [CreateGLTextures] at h
    cases hcall : CreateGLTexture drv stbi_load self gl filename tag with
    | error e => simp [hcall] at h
    | ok r =>
      obtain ⟨b, s0, g0⟩ := r
      simp only [hcall] at h
      cases hrest : CreateGLTextures drv stbi_load rest s0 g0 with
      | error e => simp [hrest] at h
      | ok r2 =>
        obtain ⟨bs2, s2, g2⟩ := r2
        simp only [hrest, Except.ok.injEq, Prod.mk.injEq] at h
        obtain ⟨-, h1, -⟩ := h
        subst h1
        obtain ⟨hm, hs⟩ := ih s0 s2 g0 g2 bs2 hrest
        have hstep : s0.m_objectMaterials = self.m_objectMaterials ∧
            s0.m_pShaderManager = self.m_pShaderManager := by
          cases b with
          | false =>
            rw [CreateGLTexture_ok_false drv stbi_load self s0 gl g0 filename tag hcall]
            exact ⟨rfl, rfl⟩
          | true =>
            obtain ⟨-, -, -, h4, h5, -⟩ :=
              CreateGLTexture_ok_true drv stbi_load self s0 gl g0 filename tag hcall
            exact ⟨h4, h5⟩
        exact ⟨hm.trans hstep.1, hs.trans hstep.2⟩

/-- With a shader attached `SetShaderMaterial` returns, keeps a shader attached and
leaves the registry and the materials alone. -/
theorem SetShaderMaterial_frame (uninit : OBJECT_MATERIAL R) (self : SceneManager R)
    (sm : ShaderManager R) (tag : String) (hsm : self.m_pShaderManager = some sm) :
    ∃ (self1 : SceneManager R) (sm1 : ShaderManager R),
      SetShaderMaterial uninit self tag = .ok self1 ∧
      self1.m_pShaderManager = some sm1 ∧
      self1.m_textureIDs = self.m_textureIDs ∧
      self1.m_loadedTextures = self.m_loadedTextures ∧
      self1.m_objectMaterials = self.m_objectMaterials := by
  unfold SetShaderMaterial
  split_ifs with hlen
  · have hne : ¬ self.m_objectMaterials.length = 0 := by omega
    simp only [FindMaterial, if_neg hne, hsm]
    exact ⟨_, _, rfl, rfl, rfl, rfl, rfl⟩
  · exact ⟨self, sm, rfl, hsm, rfl, rfl, rfl⟩

end SceneManager

namespace SceneManager

/-- The registry, the materials and the presence of a shader, as one statement executed
from a well-formed state with a shader leaves them. -/
theorem RenderScene_step_frame (T : Trig ℚ) (uninit : OBJECT_MATERIAL ℚ)
    (self : SceneManager ℚ) (drawn : List MeshKind) (sm : ShaderManager ℚ) (c : Call ℚ)
    (hwf : self.WellFormed) (hsm : self.m_pShaderManager = some sm) :
    ∃ (self1 : SceneManager ℚ) (drawn1 : List MeshKind) (sm1 : ShaderManager ℚ),
      RenderScene.step T uninit (self, drawn) c = .ok (self1, drawn1) ∧
      self1.m_pShaderManager = some sm1 ∧
      self1.m_textureIDs = self.m_textureIDs ∧
      self1.m_loadedTextures = self.m_loadedTextures ∧
      self1.m_objectMaterials = self.m_objectMaterials := by
  cases c with
  | setTransformations s xd yd zd p =>
    refine ⟨self.SetTransformations T s xd yd zd p, drawn,
      sm.setMat4Value g_ModelName (SetTransformations.modelView T s xd yd zd p), rfl,
      ?_, ?_, ?_, ?_⟩ <;> simp [SetTransformations, hsm]
  | setShaderColor r g b a =>
    refine ⟨self.SetShaderColor r g b a, drawn,
      (sm.setIntValue g_UseTextureName 0).setVec4Value g_ColorValueName ⟨r, g, b, a⟩, rfl,
      ?_, ?_, ?_, ?_⟩ <;> simp [SetShaderColor, hsm]
  | setShaderTexture t =>
    obtain ⟨s1, hs1, -, h1, h2, h3, sm1, hsm1⟩ := SetShaderTexture_flag self sm t hwf hsm
    exact ⟨s1, drawn, sm1, by simp only [RenderScene.step, hs1], hsm1, h1, h2, h3⟩
  | setTextureUVScale u v =>
    refine ⟨self.SetTextureUVScale u v, drawn, sm.setVec2Value "UVscale" ⟨u, v⟩, rfl,
      ?_, ?_, ?_, ?_⟩ <;> simp [SetTextureUVScale, hsm]
  | setShaderMaterial t =>
    obtain ⟨s1, sm1, hs1, hsm1, h1, h2, h3⟩ := SetShaderMaterial_frame uninit self sm t hsm
    exact ⟨s1, drawn, sm1, by simp only [RenderScene.step, hs1], hsm1, h1, h2, h3⟩
  | draw mesh =>
    exact ⟨self, drawn ++ [mesh], sm, rfl, hsm, rfl, rfl, rfl⟩

/-- Any list of statements, executed from a well-formed state with a shader, runs to
the end and leaves the registry and the materials as they were. -/
theorem RenderScene_run_frame (T : Trig ℚ) (uninit : OBJECT_MATERIAL ℚ) :
    ∀ (cs : List (Call ℚ)) (self : SceneManager ℚ) (drawn : List MeshKind)
      (sm : ShaderManager ℚ), self.WellFormed → self.m_pShaderManager = some sm →
      ∃ (self1 : SceneManager ℚ) (drawn1 : List MeshKind) (sm1 : ShaderManager ℚ),
        RenderScene.run T uninit cs (self, drawn) = .ok (self1, drawn1) ∧
        self1.m_pShaderManager = some sm1 ∧
        self1.m_textureIDs = self.m_textureIDs ∧
        self1.m_loadedTextures = self.m_loadedTextures ∧
        self1.m_objectMaterials = self.m_objectMaterials := by
  intro cs
  induction cs with
  | nil =>
    intro self drawn sm _ hsm
    exact ⟨self, drawn, sm, rfl, hsm, rfl, rfl, rfl⟩
  | cons c rest ih =>
    intro self drawn sm hwf hsm
    obtain ⟨s1, d1, sm1, hstep, hsm1, h1, h2, h3⟩ :=
      RenderScene_step_frame T uninit self drawn sm c hwf hsm
    have hwf1 : s1.WellFormed := by
      unfold WellFormed
      rw [h1, h2]
      exact hwf
    obtain ⟨s2, d2, sm2, hrun, hsm2, k1, k2, k3⟩ := ih s1 d1 sm1 hwf1 hsm1
    refine ⟨s2, d2, sm2, ?_, hsm2, k1.trans h1, k2.trans h2, k3.trans h3⟩
    simp only [RenderScene.run, hstep]
    exact hrun

end SceneManager

namespace SceneManager

/-- What `PrepareScene` leaves behind when the seven images decode with 3 or 4 channels,
the registry has room for them and a shader is attached: a well-formed state with a
shader, in which each of the seven tags sits in a used slot and the five materials of
`DefineObjectMaterials` follow the materials defined before. -/
theorem PrepareScene_registers (drv : GLDriver) (stbi_load : String → Option IMAGE)
    (self : SceneManager ℚ) (gl : GLState) (sm : ShaderManager ℚ)
    (hwf : self.WellFormed) (hroom : self.m_loadedTextures + 7 ≤ 16)
    (hsm : self.m_pShaderManager = some sm)
    (hload : ∀ q, q ∈ PrepareScene.textures → ∃ image, stbi_load q.1 = some image ∧
      (image.colorChannels = 3 ∨ image.colorChannels = 4)) :
    ∃ (self1 : SceneManager ℚ) (gl1 : GLState) (sm1 : ShaderManager ℚ),
      PrepareScene drv stbi_load self gl = .ok (self1, gl1) ∧
      self1.WellFormed ∧
      self1.m_pShaderManager = some sm1 ∧
      self1.m_objectMaterials = DefineObjectMaterials self.m_objectMaterials ∧
      ∀ t, t ∈ PrepareScene.textures.map Prod.snd →
        ∃ i, i < self1.m_loadedTextures ∧ self1.tagAt i = some t := by
  have hlen : self.m_textureIDs.length = 16 := hwf.1
  have hcap : self.m_loadedTextures + PrepareScene.textures.length ≤
      self.m_textureIDs.length := by
    rw [hlen]
    exact hroom
  obtain ⟨s1, g1, hs, hrun, hhs, -, -, hcnt, hlen1, -, hnew⟩ :=
    CreateGLTextures_invariant drv stbi_load PrepareScene.textures self gl hcap hload
  obtain ⟨hmat, hshader⟩ := CreateGLTextures_frame drv stbi_load PrepareScene.textures
    self s1 gl g1 _ hrun
  have hwf1 : s1.WellFormed := by
    constructor
    · rw [hlen1]; exact hwf.1
    · rw [hcnt]; exact hroom
  obtain ⟨g2, hbind, -⟩ := BindGLTextures_loop_spec s1.m_textureIDs s1.m_loadedTextures 0 g1
    (by rw [Nat.zero_add, hwf1.1]; exact hwf1.2)
  have hbind1 : s1.BindGLTextures g1 = .ok g2 := hbind
  obtain ⟨smL, hL⟩ : ∃ smL, SetupSceneLights (some sm) = .ok smL := ⟨_, rfl⟩
  refine ⟨{ s1 with
      m_objectMaterials := DefineObjectMaterials s1.m_objectMaterials
      m_pShaderManager := some smL }, g2, smL, ?_, ?_, rfl, ?_, ?_⟩
  · simp only [PrepareScene, hrun, hbind1, hshader, hsm, hL]
  · exact hwf1
  · show DefineObjectMaterials s1.m_objectMaterials = DefineObjectMaterials self.m_objectMaterials
    rw [hmat]
  · intro t ht
    obtain ⟨q, hq, hqt⟩ := List.mem_map.1 ht
    obtain ⟨i, hi, hiq⟩ := List.getElem_of_mem hq
    have hih : i < hs.length := by rw [hhs]; exact hi
    have hentry := hnew i hs[i] q (List.getElem?_eq_getElem hih)
      (by rw [List.getElem?_eq_getElem hi, hiq])
    refine ⟨self.m_loadedTextures + i, ?_, ?_⟩
    · show self.m_loadedTextures + i < s1.m_loadedTextures
      rw [hcnt]
      omega
    · show (s1.m_textureIDs[self.m_loadedTextures + i]?).map (fun e => e.tag) = some t
      rw [hentry]
      simp [hqt]

end SceneManager

namespace SceneManager

theorem RenderScene_material_tags_defined :
    ∀ t, t ∈ materialTagsUsed RenderScene.calls →
      t ∈ (DefineObjectMaterials []).map (fun m => m.tag) := by
  decide

theorem RenderScene_texture_tags_loaded :
    ∀ t, t ∈ textureTagsUsed RenderScene.calls → t ∈ PrepareScene.textures.map Prod.snd := by
  decide

/-- A material tagged with one of the five tags is in the list `DefineObjectMaterials`
returns, whatever the list held before. -/
theorem DefineObjectMaterials_has (materials : List (OBJECT_MATERIAL ℚ)) (t : String)
    (ht : t ∈ (DefineObjectMaterials []).map (fun m => m.tag)) :
    ∃ m, m ∈ DefineObjectMaterials materials ∧ m.tag = t := by
  obtain ⟨m, hm, hmt⟩ := List.mem_map.1 ht
  refine ⟨m, ?_, hmt⟩
  simp only [DefineObjectMaterials, List.nil_append, List.append_assoc, List.mem_append,
    List.mem_cons, List.mem_singleton, List.not_mem_nil, List.singleton_append,
    or_false] at hm ⊢
  exact Or.inr hm

/-- C16: every material tag `RenderScene` passes to `SetShaderMaterial` is one of the
five tags of `DefineObjectMaterials`, and every texture tag it passes to
`SetShaderTexture` is one of the seven tags `PrepareScene` registers.  So when
`PrepareScene` starts from a well-formed registry with room for seven textures and a
shader attached, and the seven images decode with 3 or 4 channels, `PrepareScene`
returns, and at every `SetShaderTexture` call of `RenderScene` the slot lookup for its
tag returns a slot number, not -1, and at every `SetShaderMaterial` call the material
list holds a material with its tag and `FindMaterial` returns true. -/
theorem RenderScene_tags_registered (drv : GLDriver) (stbi_load : String → Option IMAGE)
    (self : SceneManager ℚ) (gl : GLState) (sm : ShaderManager ℚ) (T : Trig ℚ)
    (uninit : OBJECT_MATERIAL ℚ)
    (hwf : self.WellFormed) (hroom : self.m_loadedTextures + 7 ≤ 16)
    (hsm : self.m_pShaderManager = some sm)
    (hload : ∀ q, q ∈ PrepareScene.textures → ∃ image, stbi_load q.1 = some image ∧
      (image.colorChannels = 3 ∨ image.colorChannels = 4)) :
    (∀ t, t ∈ materialTagsUsed RenderScene.calls →
      t ∈ (DefineObjectMaterials []).map (fun m => m.tag)) ∧
    (∀ t, t ∈ textureTagsUsed RenderScene.calls → t ∈ PrepareScene.textures.map Prod.snd) ∧
    ∃ (self1 : SceneManager ℚ) (gl1 : GLState),
      PrepareScene drv stbi_load self gl = .ok (self1, gl1) ∧
      ∀ (pre post : List (Call ℚ)) (c : Call ℚ), RenderScene.calls = pre ++ c :: post →
        ∃ st : SceneManager ℚ × List MeshKind,
          RenderScene.run T uninit pre (self1, []) = .ok st ∧
          (∀ t, c = Call.setShaderTexture t →
            ∃ k : Nat, st.1.FindTextureSlot t = .ok (k : Int)) ∧
          (∀ t, c = Call.setShaderMaterial t →
            (∃ m, m ∈ st.1.m_objectMaterials ∧ m.tag = t) ∧
            ∀ material : OBJECT_MATERIAL ℚ, (st.1.FindMaterial t material).1 = true) := by
  refine ⟨RenderScene_material_tags_defined, RenderScene_texture_tags_loaded, ?_⟩
  obtain ⟨s1, g1, sm1, hprep, hwf1, hsm1, hmat, htex⟩ :=
    PrepareScene_registers drv stbi_load self gl sm hwf hroom hsm hload
  refine ⟨s1, g1, hprep, ?_⟩
  intro pre post c hsplit
  obtain ⟨s2, d2, sm2, hrun, -, hids, hcnt, hmats⟩ :=
    RenderScene_run_frame T uninit pre s1 [] sm1 hwf1 hsm1
  have hc : c ∈ RenderScene.calls := by
    rw [hsplit]
    simp
  refine ⟨(s2, d2), hrun, ?_, ?_⟩
  · intro t hct
    subst hct
    have hused : t ∈ textureTagsUsed RenderScene.calls :=
      List.mem_filterMap.2 ⟨_, hc, rfl⟩
    obtain ⟨i, hi, hit⟩ := htex t (RenderScene_texture_tags_loaded t hused)
    have hle : s2.m_loadedTextures ≤ s2.m_textureIDs.length := by
      rw [hids, hcnt, hwf1.1]
      exact hwf1.2
    rcases FindTextureSlot_cases s2 t hle with ⟨hall, -⟩ | ⟨k, -, -, -, hres⟩
    · have h2 : s2.tagAt i = some t := by
        unfold tagAt
        rw [hids]
        exact hit
      exact absurd h2 (hall i (by rw [hcnt]; exact hi))
    · exact ⟨k, hres⟩
  · intro t hct
    subst hct
    have hused : t ∈ materialTagsUsed RenderScene.calls :=
      List.mem_filterMap.2 ⟨_, hc, rfl⟩
    obtain ⟨m, hm, hmt⟩ := DefineObjectMaterials_has self.m_objectMaterials t
      (RenderScene_material_tags_defined t hused)
    have hm2 : m ∈ s2.m_objectMaterials := by
      show m ∈ (s2, d2).1.m_objectMaterials
      rw [hmats, hmat]
      exact hm
    refine ⟨⟨m, hm2, hmt⟩, ?_⟩
    intro material
    have hne : ¬ s2.m_objectMaterials.length = 0 :=
      Nat.ne_of_gt (List.length_pos_of_mem hm2)
    show (s2.FindMaterial t material).1 = true
    simp only [FindMaterial, if_neg hne]

end SceneManager

namespace SceneManager

theorem sceneFresh_wellFormed : sceneFresh.WellFormed := by
  constructor
  · rfl
  · decide

theorem diskScene_decodes : ∀ q, q ∈ PrepareScene.textures →
    ∃ image, diskScene q.1 = some image ∧
      (image.colorChannels = 3 ∨ image.colorChannels = 4) := by
  intro q hq
  simp only [PrepareScene.textures, List.mem_cons, List.mem_singleton, List.not_mem_nil,
    or_false] at hq
  rcases hq with rfl | rfl | rfl | rfl | rfl | rfl | rfl
  · exact ⟨⟨1024, 1024, 3⟩, by decide, Or.inl rfl⟩
  · exact ⟨⟨1024, 1024, 3⟩, by decide, Or.inl rfl⟩
  · exact ⟨⟨1024, 1024, 4⟩, by decide, Or.inr rfl⟩
  · exact ⟨⟨1024, 1024, 3⟩, by decide, Or.inl rfl⟩
  · exact ⟨⟨1024, 1024, 3⟩, by decide, Or.inl rfl⟩
  · exact ⟨⟨1024, 1024, 3⟩, by decide, Or.inl rfl⟩
  · exact ⟨⟨1024, 1024, 3⟩, by decide, Or.inl rfl⟩

/-- Witness for C16: `PrepareScene` from the fresh scene on the disk that holds the
seven texture files. -/
theorem RenderScene_tags_registered_witness :
    (sceneFresh.WellFormed ∧ sceneFresh.m_loadedTextures + 7 ≤ 16 ∧
      sceneFresh.m_pShaderManager = some []) ∧
    (∀ t, t ∈ materialTagsUsed RenderScene.calls →
      t ∈ (DefineObjectMaterials []).map (fun m => m.tag)) ∧
    (∀ t, t ∈ textureTagsUsed RenderScene.calls → t ∈ PrepareScene.textures.map Prod.snd) ∧
    ∃ (self1 : SceneManager ℚ) (gl1 : GLState),
      PrepareScene drvSequential diskScene sceneFresh glInitial = .ok (self1, gl1) ∧
      ∀ (pre post : List (Call ℚ)) (c : Call ℚ), RenderScene.calls = pre ++ c :: post →
        ∃ st : SceneManager ℚ × List MeshKind,
          RenderScene.run trigQuarterTurns staleRecord pre (self1, []) = .ok st ∧
          (∀ t, c = Call.setShaderTexture t →
            ∃ k : Nat, st.1.FindTextureSlot t = .ok (k : Int)) ∧
          (∀ t, c = Call.setShaderMaterial t →
            (∃ m, m ∈ st.1.m_objectMaterials ∧ m.tag = t) ∧
            ∀ material : OBJECT_MATERIAL ℚ, (st.1.FindMaterial t material).1 = true) :=
  ⟨⟨sceneFresh_wellFormed, by decide, rfl⟩,
    RenderScene_tags_registered drvSequential diskScene sceneFresh glInitial []
      trigQuarterTurns staleRecord sceneFresh_wellFormed (by decide) rfl diskScene_decodes⟩

end SceneManager
